import Mathlib

/-!
Shallow embedding of the llmverify verification library.

Sources embedded here:
* `src/types/config.ts` — `Config`, `DEFAULT_CONFIG`, `TIER_LIMITS`
* `src/config` (loader) — `loadConfig`, `mergeWithDefaults`, `validateConfig`
* `src/verify.ts` — `verify` (config resolution, privacy gate, input
  validation, engine fan-out), `mergeConfig`, `validatePrivacyCompliance`,
  `validateInput`
* `src/engines/hallucination/risk-analyzer.ts` — `analyzeRiskIndicators`,
  `checkContradictions`, `detectContradiction` and the pattern detectors
* `src/engines/consistency/index.ts` — `ConsistencyEngine.check` and its
  helpers
* the JSON-schema module — `validateVerificationResponse` shape checks

Modelling conventions:
* JavaScript strings at the validation layer are sequences of UTF-16 code
  units, modelled as `List Nat` with the well-formedness predicate that every
  unit is at most `0xFFFF`.
* Engine-level text is modelled as `List Char` (the inputs exercised are
  ASCII, where one char is one code unit).
* JavaScript numbers are modelled as `ℚ`; the one square root used by the
  cosine similarity is modelled by `ratSqrt`, exact on perfect squares
  (every concrete instance evaluated below has perfect-square norms, and no
  universal theorem depends on the approximate branch).
* Fallible code returns `Except`.
-/

namespace LLMVerify

/-! ## JavaScript string model (UTF-16 code units) -/

/-- A JavaScript string: its sequence of UTF-16 code units. -/
abbrev JsStr := List Nat

/-- Well-formedness of a JavaScript string: every UTF-16 code unit is a
16-bit value. -/
def WfJsStr (s : JsStr) : Prop := ∀ u ∈ s, u ≤ 65535

instance (s : JsStr) : Decidable (WfJsStr s) := by
  unfold WfJsStr; infer_instance

/-- JavaScript whitespace code units stripped by `String.prototype.trim`:
tab through CR, space, NBSP, Ogham space mark, the U+2000–U+200A spaces,
LS, PS, narrow NBSP, medium mathematical space, ideographic space, BOM. -/
def isJsWhitespace (u : Nat) : Bool :=
  u = 32 || (9 ≤ u && u ≤ 13) || u = 160 || u = 5760 ||
  (8192 ≤ u && u ≤ 8202) || u = 8232 || u = 8233 || u = 8239 ||
  u = 8287 || u = 12288 || u = 65279

/-- `String.prototype.trim`: strip leading and trailing whitespace. -/
def jsTrim (s : JsStr) : JsStr :=
  ((s.dropWhile isJsWhitespace).reverse.dropWhile isJsWhitespace).reverse

/-! ## Configuration model (`src/types/config.ts`) -/

/-- The four subscription tiers. -/
inductive Tier | free | team | professional | enterprise
deriving DecidableEq, Repr

/-- `privacy` section of `Config`. -/
structure PrivacyConfig where
  allowNetworkRequests : Bool
  apiKey : Option String := none
  telemetryEnabled : Bool
  dataResidency : Option String := none
deriving DecidableEq, Repr

/-- Per-engine enable flag (`EngineConfig`). The open-ended `config?` record
is not used by any embedded code path and is omitted. -/
structure EngineConfig where
  enabled : Bool
deriving DecidableEq, Repr

/-- The six CSM6 governance check flags. -/
structure CSM6Checks where
  security : Bool
  privacy : Bool
  safety : Bool
  fairness : Bool
  reliability : Bool
  transparency : Bool
deriving DecidableEq, Repr

/-- `csm6` engine configuration (the optional `pii`/`harmful` sub-policies
are not read by any embedded code path and are omitted). -/
structure CSM6Config where
  enabled : Bool
  profile : String
  checks : CSM6Checks
deriving DecidableEq, Repr

/-- `engines` section of `Config`. -/
structure EnginesConfig where
  hallucination : EngineConfig
  consistency : EngineConfig
  jsonValidator : EngineConfig
  csm6 : CSM6Config
deriving DecidableEq, Repr

/-- `performance` section of `Config`. `maxContentLength` is a JavaScript
number that is `Infinity` for the enterprise tier; `none` models
`Infinity`, `some n` a finite value. -/
structure PerformanceConfig where
  timeout : Nat
  maxContentLength : Option Nat
  cacheEnabled : Bool
  cacheTTL : Nat
deriving DecidableEq, Repr

/-- `output` section of `Config`. -/
structure OutputConfig where
  verbose : Bool
  includeEvidence : Bool
  includeMethodology : Bool
  includeLimitations : Bool
deriving DecidableEq, Repr

/-- The resolved configuration object (`Config` in `src/types/config.ts`). -/
structure Config where
  tier : Tier
  organizationId : Option String := none
  privacy : PrivacyConfig
  engines : EnginesConfig
  performance : PerformanceConfig
  output : OutputConfig
deriving DecidableEq, Repr

/-- `DEFAULT_CONFIG` from `src/types/config.ts`. -/
def DEFAULT_CONFIG : Config :=
  { tier := Tier.free
    privacy := { allowNetworkRequests := false, telemetryEnabled := false }
    engines :=
      { hallucination := { enabled := true }
        consistency := { enabled := true }
        jsonValidator := { enabled := true }
        csm6 :=
          { enabled := true
            profile := "baseline"
            checks :=
              { security := true, privacy := true, safety := true
                fairness := false, reliability := false, transparency := true } } }
    performance :=
      { timeout := 30000, maxContentLength := some 10000
        cacheEnabled := true, cacheTTL := 3600 }
    output :=
      { verbose := false, includeEvidence := true
        includeMethodology := true, includeLimitations := true } }

/-- `TIER_LIMITS` from `src/types/config.ts`: each tier's `performance`
override (`none` models the enterprise `Infinity`). -/
def tierPerformance : Tier → PerformanceConfig
  | Tier.free =>
      { maxContentLength := some 1000000, timeout := 30000
        cacheEnabled := true, cacheTTL := 3600 }
  | Tier.team =>
      { maxContentLength := some 1000000, timeout := 60000
        cacheEnabled := true, cacheTTL := 7200 }
  | Tier.professional =>
      { maxContentLength := some 1000000, timeout := 120000
        cacheEnabled := true, cacheTTL := 14400 }
  | Tier.enterprise =>
      { maxContentLength := none, timeout := 300000
        cacheEnabled := true, cacheTTL := 28800 }

/-- A caller-supplied `Partial<Config>`: every top-level property optional,
the nested objects (when present) complete, as TypeScript `Partial`
makes only the top level optional. -/
structure PartialConfig where
  tier : Option Tier := none
  organizationId : Option String := none
  privacy : Option PrivacyConfig := none
  engines : Option EnginesConfig := none
  performance : Option PerformanceConfig := none
  output : Option OutputConfig := none
deriving DecidableEq, Repr

/-- Object spread `{...base, ...p}` of a partial config over a full one:
every top-level property present on `p` replaces the base property. -/
def spreadConfig (base : Config) (p : PartialConfig) : Config :=
  { tier := p.tier.getD base.tier
    organizationId := p.organizationId.orElse (fun _ => base.organizationId)
    privacy := p.privacy.getD base.privacy
    engines := p.engines.getD base.engines
    performance := p.performance.getD base.performance
    output := p.output.getD base.output }

/-- View a full config as the partial config with every property present. -/
def Config.toPartial (c : Config) : PartialConfig :=
  { tier := some c.tier, organizationId := c.organizationId
    privacy := some c.privacy, engines := some c.engines
    performance := some c.performance, output := some c.output }

/-! ## Configuration loader (`src/config`) -/

/-- The parameter type of `loadConfig`:
`{ config?: Partial<Config>; configPath?: string }`. -/
structure LoadOptions where
  config : Option PartialConfig := none
  configPath : Option String := none

/-- `mergeWithDefaults` from the config loader: `{...DEFAULT_CONFIG, ...config}`
followed by a deep merge of the four nested sections when present on the
argument. With typed inputs (nested objects complete when present) the deep
merge coincides with the top-level spread. -/
def mergeWithDefaults (config : PartialConfig) : Config :=
  spreadConfig DEFAULT_CONFIG config

/-- `loadConfig` from the config loader, specialised to an environment with
no `llmverify.config.json` (or variant) on disk and no `LLMVERIFY_*`
environment variables: the file and env loaders contribute nothing, so the
result is `DEFAULT_CONFIG` unless `options.config` is present, in which case
it is merged over the defaults. -/
def loadConfig (options : Option LoadOptions) : Config :=
  match options with
  | none => DEFAULT_CONFIG
  | some o =>
    match o.config with
    | none => DEFAULT_CONFIG
    | some c => mergeWithDefaults ((spreadConfig DEFAULT_CONFIG c).toPartial)

/-- The call-site coercion in `verify`: `loadConfig(options.config)` passes the
caller's `Partial<Config>` where `loadConfig` expects
`{ config?, configPath? }`. Reading `.config` or `.configPath` off a
`Partial<Config>` value yields `undefined`, because the `Config` interface
declares neither property; so the caller configuration is dropped here. -/
def partialAsLoadOptions (p : Option PartialConfig) : Option LoadOptions :=
  p.map (fun _ => { config := none, configPath := none })

/-! ## `verify` — config merge, privacy gate, input validation
(`src/verify.ts`) -/

/-- `mergeConfig` from `src/verify.ts`: merge a user config with defaults and
tier limits. `tier = userConfig?.tier || 'free'`; `performance` is
`{...DEFAULT, ...TIER_LIMITS[tier].performance, ...userConfig?.performance}`;
the other sections spread the user section (complete when present) over the
default; `includeLimitations` is forced `true`. -/
def mergeConfig (userConfig : Option PartialConfig) : Config :=
  let u := userConfig.getD {}
  let tier := u.tier.getD Tier.free
  { tier := tier
    organizationId := u.organizationId
    privacy := u.privacy.getD DEFAULT_CONFIG.privacy
    engines := u.engines.getD DEFAULT_CONFIG.engines
    performance := u.performance.getD (tierPerformance tier)
    output :=
      let o := u.output.getD DEFAULT_CONFIG.output
      { o with includeLimitations := true } }

/-- The fixed validation error codes (`src/errors/codes`; the errors module
is not among the provided sources — modelled from the spec section on the
error taxonomy, which fixes exactly these three codes). -/
inductive ErrCode | EMPTY_INPUT | INVALID_ENCODING | CONTENT_TOO_LARGE
deriving DecidableEq, Repr

/-- Errors thrown by the `verify` front matter. `validation` carries the
machine-readable code and the context payload (`contentLength`, and
`maxLength` when the error is size-related); `privacyViolation` carries its
message. Modelled from the spec for the class shapes (the errors module is
not among the provided sources); the payloads below are the ones
`src/verify.ts` constructs. -/
inductive VerifyErr
  | validation (code : ErrCode) (message : String) (contentLength : Nat)
      (maxLength : Option Nat)
  | privacyViolation (message : String)
deriving DecidableEq, Repr

/-- `validatePrivacyCompliance` from `src/verify.ts`. -/
def validatePrivacyCompliance (config : Config) : Except VerifyErr Unit :=
  if config.tier = Tier.free ∧ config.privacy.allowNetworkRequests then
    Except.error (VerifyErr.privacyViolation
      ("Free tier cannot enable network requests. This is a privacy violation. Upgrade to Team tier for ML-enhanced features."))
  else if config.tier = Tier.free ∧ config.privacy.telemetryEnabled then
    Except.error (VerifyErr.privacyViolation
      ("Free tier cannot enable telemetry. This is a privacy violation."))
  else
    Except.ok ()

/-- The allow-list character class of the encoding check in `validateInput`:
`[\x00-\x7F\u0080-￿]` applied to one UTF-16 code unit. -/
def allowListUnit (u : Nat) : Bool :=
  decide (u ≤ 127) || (decide (128 ≤ u) && decide (u ≤ 65535))

/-- The encoding check `/^[\x00-\x7F\u0080-￿]*$/.test(content)`: every
code unit lies in the allow-list class. -/
def encodingValid (content : JsStr) : Bool :=
  content.all allowListUnit

/-- The effective per-tier maximum:
`TIER_LIMITS[tier].performance?.maxContentLength || 1000000` (`none` models
`Infinity`, which is truthy and therefore kept; a `0` would be falsy). -/
def effectiveTierMax (tier : Tier) : Option Nat :=
  match (tierPerformance tier).maxContentLength with
  | none => none
  | some m => some (if m = 0 then 1000000 else m)

/-- The absolute maximum safety limit in `validateInput` (10 MiB). -/
def ABSOLUTE_MAX : Nat := 10 * 1024 * 1024

/-- `validateInput` from `src/verify.ts`: empty check, encoding check,
per-tier size check, absolute size check, in source order. Only
`config.tier` is read from the config. The `toLocaleString` digit grouping
in the size message is modelled as plain decimal rendering. -/
def validateInput (tier : Tier) (content : JsStr) : Except VerifyErr Unit :=
  if content.isEmpty || (jsTrim content).isEmpty then
    Except.error (VerifyErr.validation ErrCode.EMPTY_INPUT
      ("Content cannot be empty") content.length none)
  else if ¬ encodingValid content then
    Except.error (VerifyErr.validation ErrCode.INVALID_ENCODING
      ("Content contains invalid characters") content.length none)
  else
    match effectiveTierMax tier with
    | some maxLength =>
      if content.length > maxLength then
        Except.error (VerifyErr.validation ErrCode.CONTENT_TOO_LARGE
          ("Content exceeds maximum size (" ++ toString maxLength ++
            " chars). Current: " ++ toString content.length ++
            " chars. Try verifying smaller sections or breaking content into chunks.")
          content.length (some maxLength))
      else if content.length > ABSOLUTE_MAX then
        Except.error (VerifyErr.validation ErrCode.CONTENT_TOO_LARGE
          ("Content exceeds absolute maximum size (" ++ toString ABSOLUTE_MAX ++ " bytes)")
          content.length (some ABSOLUTE_MAX))
      else
        Except.ok ()
    | none =>
      if content.length > ABSOLUTE_MAX then
        Except.error (VerifyErr.validation ErrCode.CONTENT_TOO_LARGE
          ("Content exceeds absolute maximum size (" ++ toString ABSOLUTE_MAX ++ " bytes)")
          content.length (some ABSOLUTE_MAX))
      else
        Except.ok ()

/-! ## `verify` — engine fan-out bookkeeping (`src/verify.ts`) -/

/-- The optional `context` argument of `verify`. -/
structure VerifyContext where
  isJSON : Option Bool := none
  skipEngines : Option (List String) := none

/-- `options.context?.skipEngines?.includes(name)`. -/
def skipsEngine (ctx : Option VerifyContext) (name : String) : Bool :=
  match ctx with
  | none => false
  | some c => ((c.skipEngines).getD []).contains name

/-- Truthiness of `options.context?.isJSON`. -/
def contextIsJSON (ctx : Option VerifyContext) : Bool :=
  match ctx with
  | none => false
  | some c => (c.isJSON).getD false

/-- The engine bookkeeping `verify` returns: `enginesUsed` and `notChecked`,
in push order. -/
structure EngineRun where
  enginesUsed : List String
  notChecked : List String
deriving DecidableEq, Repr

/-- The engine fan-out of `verify` (`src/verify.ts`, the four gated blocks):
which engines run and which names are pushed onto `notChecked`. The JSON
validator block has no `else` branch, so `json` is never pushed onto
`notChecked`. -/
def engineSelection (config : Config) (ctx : Option VerifyContext) : EngineRun :=
  let hall := config.engines.hallucination.enabled &&
    !(skipsEngine ctx "hallucination")
  let cons := config.engines.consistency.enabled &&
    !(skipsEngine ctx "consistency")
  let json := config.engines.jsonValidator.enabled && contextIsJSON ctx &&
    !(skipsEngine ctx "json")
  let csm6 := config.engines.csm6.enabled && !(skipsEngine ctx "csm6")
  { enginesUsed :=
      (if hall then ["hallucination"] else []) ++
      (if cons then ["consistency"] else []) ++
      (if json then ["json"] else []) ++
      (if csm6 then ["csm6"] else [])
    notChecked :=
      (if hall then [] else ["hallucination"]) ++
      (if cons then [] else ["consistency"]) ++
      (if csm6 then [] else ["csm6"]) }

/-- The front half of `verify` (`src/verify.ts`): resolve the configuration
via `loadConfig(options.config)` then `mergeConfig`, run the privacy gate,
validate the input, then perform the engine fan-out. The engine payloads are
pure and never throw in this model, so the observable outcome is the engine
bookkeeping. Specialised (through `loadConfig`) to the environment with no
config file and no environment overrides. -/
def verifyFront (userConfig : Option PartialConfig) (content : JsStr)
    (ctx : Option VerifyContext) : Except VerifyErr EngineRun := do
  let baseConfig := loadConfig (partialAsLoadOptions userConfig)
  let config := mergeConfig (some baseConfig.toPartial)
  validatePrivacyCompliance config
  validateInput config.tier content
  pure (engineSelection config ctx)

/-! ## JavaScript value model for the schema/config type guards -/

/-- A JavaScript value, as far as the structural type guards inspect one.
`infinity` is the number `Infinity` (`typeof` is `number`). -/
inductive JsVal
  | str (s : String)
  | num (q : ℚ)
  | infinity
  | boolean (b : Bool)
  | null
  | obj (fields : List (String × JsVal))
deriving Repr

/-- The JavaScript `typeof` operator on a `JsVal` (note `typeof null` is
`object`). -/
def typeofJs : JsVal → String
  | JsVal.str _ => "string"
  | JsVal.num _ => "number"
  | JsVal.infinity => "number"
  | JsVal.boolean _ => "boolean"
  | JsVal.null => "object"
  | JsVal.obj _ => "object"

/-- Property access `v[k]`: `none` models `undefined`. -/
def getProp (v : JsVal) (k : String) : Option JsVal :=
  match v with
  | JsVal.obj fields => (fields.find? (fun p => p.1 == k)).map (fun p => p.2)
  | _ => none

/-- `typeof v[k]` (with `undefined` for a missing property). -/
def typeofProp (v : JsVal) (k : String) : String :=
  match getProp v k with
  | some w => typeofJs w
  | none => "undefined"

/-- `validateConfig` from the config loader: a shallow structural check that
reads `config.tier`, `config.maxContentLength` and `config.verbose` at the
top level of the object. -/
def validateConfigJs (config : JsVal) : Bool :=
  (typeofJs config == "object") &&
  (typeofProp config "tier" == "string") &&
  (typeofProp config "maxContentLength" == "number") &&
  (typeofProp config "verbose" == "boolean")

/-- The tier names as the strings of the `Tier` union type. -/
def tierString : Tier → String
  | Tier.free => "free"
  | Tier.team => "team"
  | Tier.professional => "professional"
  | Tier.enterprise => "enterprise"

/-- The JavaScript object a well-formed `Config` value is: exactly the
top-level properties the `Config` interface declares (the optional
`organizationId` present only when set), with `performance.maxContentLength`
and `output.verbose` nested in their sections. -/
def configToJs (c : Config) : JsVal :=
  JsVal.obj
    ([("tier", JsVal.str (tierString c.tier))] ++
     (match c.organizationId with
      | none => []
      | some o => [("organizationId", JsVal.str o)]) ++
     [("privacy", JsVal.obj
        ([("allowNetworkRequests", JsVal.boolean c.privacy.allowNetworkRequests)] ++
         (match c.privacy.apiKey with
          | none => []
          | some k => [("apiKey", JsVal.str k)]) ++
         [("telemetryEnabled", JsVal.boolean c.privacy.telemetryEnabled)] ++
         (match c.privacy.dataResidency with
          | none => []
          | some d => [("dataResidency", JsVal.str d)]))),
      ("engines", JsVal.obj
        [("hallucination", JsVal.obj [("enabled", JsVal.boolean c.engines.hallucination.enabled)]),
         ("consistency", JsVal.obj [("enabled", JsVal.boolean c.engines.consistency.enabled)]),
         ("jsonValidator", JsVal.obj [("enabled", JsVal.boolean c.engines.jsonValidator.enabled)]),
         ("csm6", JsVal.obj
           [("enabled", JsVal.boolean c.engines.csm6.enabled),
            ("profile", JsVal.str c.engines.csm6.profile),
            ("checks", JsVal.obj
              [("security", JsVal.boolean c.engines.csm6.checks.security),
               ("privacy", JsVal.boolean c.engines.csm6.checks.privacy),
               ("safety", JsVal.boolean c.engines.csm6.checks.safety),
               ("fairness", JsVal.boolean c.engines.csm6.checks.fairness),
               ("reliability", JsVal.boolean c.engines.csm6.checks.reliability),
               ("transparency", JsVal.boolean c.engines.csm6.checks.transparency)])])]),
      ("performance", JsVal.obj
        [("timeout", JsVal.num c.performance.timeout),
         ("maxContentLength",
           match c.performance.maxContentLength with
           | none => JsVal.infinity
           | some n => JsVal.num n),
         ("cacheEnabled", JsVal.boolean c.performance.cacheEnabled),
         ("cacheTTL", JsVal.num c.performance.cacheTTL)]),
      ("output", JsVal.obj
        [("verbose", JsVal.boolean c.output.verbose),
         ("includeEvidence", JsVal.boolean c.output.includeEvidence),
         ("includeMethodology", JsVal.boolean c.output.includeMethodology),
         ("includeLimitations", JsVal.boolean c.output.includeLimitations)])])

/-! ## Helpers for theorem statements -/

instance {ε α : Type} [DecidableEq ε] [DecidableEq α] : DecidableEq (Except ε α) :=
  fun x y =>
  match x, y with
  | Except.ok a, Except.ok b =>
    if h : a = b then isTrue (h ▸ rfl)
    else isFalse (fun he => h (Except.ok.inj he))
  | Except.error a, Except.error b =>
    if h : a = b then isTrue (h ▸ rfl)
    else isFalse (fun he => h (Except.error.inj he))
  | Except.ok _, Except.error _ => isFalse (fun he => Except.noConfusion he)
  | Except.error _, Except.ok _ => isFalse (fun he => Except.noConfusion he)

/-- The code units of an ASCII string literal (for ASCII text, UTF-16 code
units coincide with the character code points). -/
def asciiUnits (s : String) : JsStr := s.data.map Char.toNat

/-- The validation error code of a `verify`-front result, when there is
one. -/
def errCode : Except VerifyErr α → Option ErrCode
  | Except.error (VerifyErr.validation c _ _ _) => some c
  | Except.error (VerifyErr.privacyViolation _) => none
  | Except.ok _ => none

/-! ## Support lemmas -/

/-- Well-formed strings always pass the encoding allow-list test. -/
theorem encodingValid_of_wf (content : JsStr) (h : WfJsStr content) :
    encodingValid content = true := by
  unfold encodingValid
  rw [List.all_eq_true]
  intro u hu
  have hb := h u hu
  unfold allowListUnit
  by_cases h1 : u ≤ 127
  · simp [h1]
  · simp [h1]
    omega

theorem dropWhile_replicate_of_neg {p : Nat → Bool} {u : Nat} (h : p u = false)
    (n : Nat) : List.dropWhile p (List.replicate n u) = List.replicate n u := by
  cases n with
  | zero => rfl
  | succ m => rw [List.replicate_succ, List.dropWhile_cons, h]; simp

theorem dropWhile_replicate_of_pos {p : Nat → Bool} {u : Nat} (h : p u = true)
    (n : Nat) : List.dropWhile p (List.replicate n u) = [] := by
  induction n with
  | zero => rfl
  | succ m ih => rw [List.replicate_succ, List.dropWhile_cons, h]; simpa using ih

/-- `jsTrim` of a run of non-whitespace units is the run itself. -/
theorem jsTrim_replicate_of_neg {u : Nat} (h : isJsWhitespace u = false)
    (n : Nat) : jsTrim (List.replicate n u) = List.replicate n u := by
  unfold jsTrim
  rw [dropWhile_replicate_of_neg h, List.reverse_replicate,
    dropWhile_replicate_of_neg h, List.reverse_replicate]

/-- `jsTrim` of a run of spaces is empty. -/
theorem jsTrim_replicate_space (n : Nat) :
    jsTrim (List.replicate n 32) = [] := by
  unfold jsTrim
  rw [dropWhile_replicate_of_pos rfl]
  rfl

/-! ## Claim theorems: configuration resolution and input validation -/

/-- C1: the privacy gate is supposed to reject a caller-supplied free-tier
config with `allowNetworkRequests` true before anything else runs, but
`verify` passes `options.config` where `loadConfig` expects
`{config?, configPath?}`, so the caller configuration is dropped and the
call proceeds normally (first conjunct); the gate itself would fire had the
config reached it through `mergeConfig` directly (second conjunct). -/
theorem c1_caller_config_dropped_no_privacy_error :
    (verifyFront
        (some ({ tier := some Tier.free,
                 privacy := some { allowNetworkRequests := true,
                                   telemetryEnabled := false } } : PartialConfig))
        (asciiUnits ("hello world")) none =
      Except.ok { enginesUsed := ["hallucination", "consistency", "csm6"],
                  notChecked := [] }) ∧
    (validatePrivacyCompliance (mergeConfig
        (some ({ tier := some Tier.free,
                 privacy := some { allowNetworkRequests := true,
                                   telemetryEnabled := false } } : PartialConfig))) =
      Except.error (VerifyErr.privacyViolation
        ("Free tier cannot enable network requests. This is a privacy violation. Upgrade to Team tier for ML-enhanced features."))) := by
  exact ⟨by decide, by decide⟩

/-- C2 counterexample: there is no UTF-16 string with a character outside
the allow-list `[\x00-\x7F\u0080-￿]` — the two ranges cover every code
unit, so the claimed rejectable input does not exist. -/
theorem c2_counterexample_no_rejectable_input :
    ¬ ∃ content : JsStr, WfJsStr content ∧ encodingValid content = false := by
  rintro ⟨content, hwf, hv⟩
  rw [encodingValid_of_wf content hwf] at hv
  cases hv

/-- C2 amended: the allow-list covers every UTF-16 code unit, so
`validateInput` never produces an `INVALID_ENCODING` error on any
well-formed string (the universal rejection claim holds vacuously). -/
theorem c2_invalid_encoding_unreachable (tier : Tier) (content : JsStr)
    (h : WfJsStr content) :
    errCode (validateInput tier content) ≠ some ErrCode.INVALID_ENCODING := by
  have henc := encodingValid_of_wf content h
  unfold validateInput
  simp only [henc]
  split
  · simp [errCode]
  · simp only [not_true, if_false, Bool.true_eq_false, if_neg]
    split
    · split
      · simp [errCode]
      · split
        · simp [errCode]
        · simp [errCode]
    · split
      · simp [errCode]
      · simp [errCode]

/-- C2 witness: the amended theorem applied at the empty string. -/
theorem c2_invalid_encoding_unreachable_witness :
    WfJsStr [] ∧
    errCode (validateInput Tier.free []) ≠ some ErrCode.INVALID_ENCODING :=
  ⟨by decide, c2_invalid_encoding_unreachable Tier.free [] (by decide)⟩

/-- C5 counterexample: content of 1,000,001 spaces exceeds the free-tier cap
but is rejected as `EMPTY_INPUT` (the whitespace-only check fires first),
not `CONTENT_TOO_LARGE`. -/
theorem c5_counterexample_whitespace_empty_first :
    1000000 < (List.replicate 1000001 (32 : Nat)).length ∧
    validateInput Tier.free (List.replicate 1000001 (32 : Nat)) =
      Except.error (VerifyErr.validation ErrCode.EMPTY_INPUT
        ("Content cannot be empty") 1000001 none) := by
  constructor
  · rw [List.length_replicate]
    norm_num
  · unfold validateInput
    rw [if_pos]
    · rw [List.length_replicate]
    · rw [jsTrim_replicate_space,
        show ([] : JsStr).isEmpty = true from rfl, Bool.or_true]

/-- C5 amended: for content whose trimmed form is non-empty, the free, team
and professional tiers reject content longer than 1,000,000 characters with
`CONTENT_TOO_LARGE`, the message and context naming both the limit and the
actual length; the enterprise tier has no per-tier cap but rejects content
longer than 10 MiB; content at or below the applicable limits is never
rejected. -/
theorem c5_size_validation (tier : Tier) (content : JsStr)
    (hwf : WfJsStr content)
    (hne : (content.isEmpty || (jsTrim content).isEmpty) = false) :
    ((tier = Tier.free ∨ tier = Tier.team ∨ tier = Tier.professional) →
       1000000 < content.length →
       validateInput tier content = Except.error (VerifyErr.validation
         ErrCode.CONTENT_TOO_LARGE
         ("Content exceeds maximum size (" ++ toString 1000000 ++
          " chars). Current: " ++ toString content.length ++
          " chars. Try verifying smaller sections or breaking content into chunks.")
         content.length (some 1000000))) ∧
    (tier = Tier.enterprise → ABSOLUTE_MAX < content.length →
       validateInput tier content = Except.error (VerifyErr.validation
         ErrCode.CONTENT_TOO_LARGE
         ("Content exceeds absolute maximum size (" ++ toString ABSOLUTE_MAX ++ " bytes)")
         content.length (some ABSOLUTE_MAX))) ∧
    (tier = Tier.enterprise → content.length ≤ ABSOLUTE_MAX →
       validateInput tier content = Except.ok ()) ∧
    (content.length ≤ 1000000 → validateInput tier content = Except.ok ()) := by
  have henc := encodingValid_of_wf content hwf
  refine ⟨?_, ?_, ?_, ?_⟩
  · rintro (rfl | rfl | rfl) hlen <;>
      (unfold validateInput
       rw [if_neg (by simp [hne])]
       rw [if_neg (by simp [henc])]
       simp only [effectiveTierMax, tierPerformance]
       norm_num
       intro h
       exact absurd hlen (by omega))
  · rintro rfl hlen
    unfold validateInput
    rw [if_neg (by simp [hne])]
    rw [if_neg (by simp [henc])]
    simp only [effectiveTierMax, tierPerformance]
    rw [if_pos hlen]
  · rintro rfl hlen
    unfold validateInput
    rw [if_neg (by simp [hne])]
    rw [if_neg (by simp [henc])]
    simp only [effectiveTierMax, tierPerformance]
    rw [if_neg (by omega)]
  · intro hlen
    cases tier <;>
      (unfold validateInput ABSOLUTE_MAX
       rw [if_neg (by simp [hne])]
       rw [if_neg (by simp [henc])]
       simp only [effectiveTierMax, tierPerformance]
       norm_num
       try split_ifs
       all_goals first | rfl | (exfalso; omega) | (intro h; exfalso; omega))

/-- C5 witness: the amended theorem applied to a two-character string under
the free tier, exercising the never-rejected conjunct. -/
theorem c5_size_validation_witness :
    WfJsStr (asciiUnits ("ok")) ∧
    ((asciiUnits ("ok")).isEmpty || (jsTrim (asciiUnits ("ok"))).isEmpty) = false ∧
    (asciiUnits ("ok")).length ≤ 1000000 ∧
    validateInput Tier.free (asciiUnits ("ok")) = Except.ok () :=
  ⟨by decide, by decide, by decide,
    (c5_size_validation Tier.free (asciiUnits ("ok")) (by decide)
      (by decide)).2.2.2 (by decide)⟩

/-- C4 counterexample: with the default configuration (JSON validator
enabled) and no context, the JSON engine does not run, yet `json` appears
neither in `notChecked` (which is empty) nor in `enginesUsed`. -/
theorem c4_counterexample_json_missing_from_notChecked :
    verifyFront none (asciiUnits ("hello world")) none =
      Except.ok { enginesUsed := ["hallucination", "consistency", "csm6"],
                  notChecked := [] } ∧
    ("json" ∉ (["hallucination", "consistency", "csm6"] : List String)) := by
  exact ⟨by decide, by decide⟩

/-- C4 amended: `hallucination`, `consistency` and `csm6` appear in
`notChecked` exactly when their gate is off, engines that ran never appear
in `notChecked`, but the JSON validator is never recorded in `notChecked`,
even when it does not run. -/
theorem c4_notChecked_characterisation (config : Config)
    (ctx : Option VerifyContext) :
    ("hallucination" ∈ (engineSelection config ctx).notChecked ↔
       (config.engines.hallucination.enabled &&
        !(skipsEngine ctx "hallucination")) = false) ∧
    ("consistency" ∈ (engineSelection config ctx).notChecked ↔
       (config.engines.consistency.enabled &&
        !(skipsEngine ctx "consistency")) = false) ∧
    ("csm6" ∈ (engineSelection config ctx).notChecked ↔
       (config.engines.csm6.enabled && !(skipsEngine ctx "csm6")) = false) ∧
    ("json" ∉ (engineSelection config ctx).notChecked) ∧
    (∀ e ∈ (engineSelection config ctx).enginesUsed,
       e ∉ (engineSelection config ctx).notChecked) := by
  cases hH : config.engines.hallucination.enabled &&
      !(skipsEngine ctx "hallucination") <;>
    cases hC : config.engines.consistency.enabled &&
        !(skipsEngine ctx "consistency") <;>
      cases hJ : config.engines.jsonValidator.enabled && contextIsJSON ctx &&
          !(skipsEngine ctx "json") <;>
        cases hS : config.engines.csm6.enabled && !(skipsEngine ctx "csm6") <;>
          simp [engineSelection, hH, hC, hJ, hS]

/-- C4 witness: the amended theorem applied to the default configuration
with no context; the hallucination engine ran and is absent from
`notChecked`. -/
theorem c4_notChecked_characterisation_witness :
    ("hallucination" ∈ (engineSelection DEFAULT_CONFIG none).enginesUsed) ∧
    ("hallucination" ∉ (engineSelection DEFAULT_CONFIG none).notChecked) :=
  ⟨by decide,
    (c4_notChecked_characterisation DEFAULT_CONFIG none).2.2.2.2
      ("hallucination") (by decide)⟩

/-- C9: `validateConfig` requires `maxContentLength` and `verbose` at the
top level of the object, but a well-formed `Config` nests them under
`performance` and `output`, so `validateConfig` is `false` on every
well-formed `Config` value (in particular on `DEFAULT_CONFIG` and on every
`loadConfig` result). -/
theorem c9_validateConfig_always_false (c : Config) :
    validateConfigJs (configToJs c) = false := by
  have h : getProp (configToJs c) ("maxContentLength") = none := by
    rcases c with ⟨tier, orgId, priv, eng, perf, out⟩
    rcases orgId with _ | o <;>
      rcases priv with ⟨anr, apiKey, te, dr⟩ <;>
        rcases apiKey with _ | k <;>
          rcases dr with _ | d <;>
            simp [configToJs, getProp, List.find?]
  simp [validateConfigJs, typeofProp, h]

/-! ## Engine-level text model

Engine code operates on JavaScript strings through regular expressions; the
inputs exercised below are ASCII, where one character is one code unit, so
engine-level text is modelled as `List Char`. -/

/-- Engine-level text. -/
abbrev Text := List Char

/-- Lowercasing, as `String.prototype.toLowerCase` on ASCII text. -/
def lowerText (t : Text) : Text := t.map Char.toLower

/-- A regex word character (`\w`, i.e. `[A-Za-z0-9_]`). -/
def isWordChar (c : Char) : Bool := c.isAlphanum || c = '_'

/-- Word-character-ness of an optional neighbouring character (an absent
neighbour — start or end of input — is not a word character). -/
def wordness : Option Char → Bool
  | none => false
  | some c => isWordChar c

/-- A regex whitespace character (`\s`), restricted to the ASCII range. -/
def isSpaceChar (c : Char) : Bool :=
  c = ' ' || c = '\t' || c = '\n' || c = '\r' || c = '\x0b' || c = '\x0c'

/-- Split on whitespace runs, returning the non-empty tokens. JavaScript
`split(/\s+/)` can additionally produce one empty leading or trailing
token; every consumer below either filters tokens by a length bound or is
the token count `jsSplitCount`, which accounts for them. -/
def splitWsGo (cur : Text) : Text → List Text
  | [] => if cur.isEmpty then [] else [cur.reverse]
  | c :: cs =>
    if isSpaceChar c then
      if cur.isEmpty then splitWsGo [] cs else cur.reverse :: splitWsGo [] cs
    else splitWsGo (c :: cur) cs

/-- The tokens of `text.split(/\s+/)` that are non-empty. -/
def splitWs (t : Text) : List Text := splitWsGo [] t

/-- The length of the JavaScript array `text.split(/\s+/)`, including the
empty token produced by leading and by trailing whitespace (and `[""]` for
the empty string). -/
def jsSplitCount (t : Text) : Nat :=
  match t with
  | [] => 1
  | c :: cs =>
    (splitWs (c :: cs)).length +
    (if isSpaceChar c then 1 else 0) +
    (if isSpaceChar (cs.getLastD c) then 1 else 0)

/-- Deduplication keeping the first occurrence of each element, as a
JavaScript `Set` built by insertion does. -/
def firstDedup : List Text → List Text
  | [] => []
  | a :: as => a :: (firstDedup as).filter (fun x => x ≠ a)

/-- The content words longer than four characters of a text
(`text.split(/\s+/).filter(w => w.length > 4)`). -/
def longWords (t : Text) : List Text :=
  (splitWs t).filter (fun w => w.length > 4)

/-- The shared-subject check both contradiction detectors use: the number of
distinct content words longer than four characters that the two (already
lowercased) texts share. -/
def overlapCount (t1 t2 : Text) : Nat :=
  ((firstDedup (longWords t1)).filter (fun w => (longWords t2).contains w)).length

/-! ## Regex scanning machinery -/

/-- Scan every position of the text (with the preceding character, for word
boundaries) for a position-local match. -/
def scanPos (f : Option Char → Text → Bool) : Option Char → Text → Bool
  | prev, [] => f prev []
  | prev, c :: cs => f prev (c :: cs) || scanPos f (some c) cs

/-- Match of one `\b`-delimited literal alternative at a position: the
phrase is a prefix of the remaining text, with a word boundary before its
first and after its last character (a boundary holds where the two
neighbouring positions differ in word-character-ness). -/
def phraseAt (phrase : Text) (prev : Option Char) (rest : Text) : Bool :=
  match phrase with
  | [] => false
  | p0 :: _ =>
    phrase.isPrefixOf rest &&
    (wordness prev != isWordChar p0) &&
    (wordness (rest.drop phrase.length).head? != isWordChar (phrase.getLastD p0))

/-- `.test` of a regex of the shape `/\b(?:w1|w2|...)\b/` (the text is
lowercased by the caller when the regex is case-insensitive). -/
def testPattern (phrases : List Text) (t : Text) : Bool :=
  scanPos (fun prev rest => phrases.any (fun p => phraseAt p prev rest)) none t

/-- `.test` of a regex that is a plain alternation of literals without
boundary assertions. -/
def containsPlain (phrases : List Text) (t : Text) : Bool :=
  scanPos (fun _ rest => phrases.any (fun p => p.isPrefixOf rest)) none t

theorem phraseAt_length {p : Text} {prev : Option Char} {rest : Text}
    (h : phraseAt p prev rest = true) : 1 ≤ p.length ∧ p.length ≤ rest.length := by
  cases p with
  | nil => simp [phraseAt] at h
  | cons p0 ps =>
    simp only [phraseAt, Bool.and_eq_true] at h
    refine ⟨by simp, ?_⟩
    have hpre := List.isPrefixOf_iff_prefix.mp h.1.1
    exact hpre.length_le

/-- Count the matches of `text.match(/\b(?:w1|w2|...)\b/g)`: scan left to
right, and on a match resume after the matched text (alternatives are tried
in order, as a regex alternation does). -/
def countPatternGo (phrases : List Text) :
    Nat → Option Char → Text → Nat
  | 0, _, _ => 0
  | fuel + 1, prev, rest =>
    match phrases.find? (fun p => phraseAt p prev rest) with
    | some p =>
      1 + countPatternGo phrases fuel (some (p.getLastD ' ')) (rest.drop p.length)
    | none =>
      match rest with
      | [] => 0
      | c :: cs => countPatternGo phrases fuel (some c) cs

/-- The number of matches of a global `\b`-delimited alternation regex.
The fuel `t.length + 1` is adequate: a found phrase is non-empty
(`phraseAt_length`), so every step consumes input. -/
def countPattern (phrases : List Text) (t : Text) : Nat :=
  countPatternGo phrases (t.length + 1) none t

theorem dropWhile_length_le {α : Type} (p : α → Bool) (l : List α) :
    (l.dropWhile p).length ≤ l.length := by
  induction l with
  | nil => simp [List.dropWhile]
  | cons a as ih =>
    rw [List.dropWhile_cons]
    split
    · exact Nat.le_trans ih (by simp)
    · simp

/-- Maximal runs of characters satisfying `p` that sit between word
boundaries (used for `/\b\d{3,}\b/g`-style patterns: such a pattern can
only match a maximal run whose neighbours are not word characters). -/
def boundedRunsGo (p : Char → Bool) : Nat → Option Char → Text → List Text
  | 0, _, _ => []
  | _, _, [] => []
  | fuel + 1, prev, c :: cs =>
    if p c && !(wordness prev) then
      let run := (c :: cs).takeWhile p
      let rest := (c :: cs).dropWhile p
      (if !(wordness rest.head?) then [run] else []) ++
        boundedRunsGo p fuel (some (run.getLastD c)) rest
    else boundedRunsGo p fuel (some c) cs

/-- Runs scanner entry point. The fuel `t.length` is adequate: a run
consumes at least its head character (`dropWhile_length_le` on the tail),
and the skip branch consumes one character. -/
def boundedRuns (p : Char → Bool) (prev : Option Char) (t : Text) :
    List Text :=
  boundedRunsGo p t.length prev t

/-- The numeric value of a run of decimal digits. -/
def digitsToNat (digits : Text) : Nat :=
  digits.foldl (fun n c => 10 * n + (c.toNat - 48)) 0

/-- JavaScript `parseInt` on a matched numeric string: the value of its
leading digit run. -/
def parseIntJs (t : Text) : Nat := digitsToNat (t.takeWhile Char.isDigit)

/-- The matches of `/\b(19|20)\d{2}\b/g`: boundary-delimited digit runs of
exactly four digits starting `19` or `20` (a longer run cannot match — the
trailing `\b` fails inside it — and interior starts fail the leading
`\b`). -/
def yearMatches (t : Text) : List Nat :=
  ((boundedRuns Char.isDigit none t).filter (fun r =>
      r.length = 4 &&
      (("19".data).isPrefixOf r || ("20".data).isPrefixOf r))).map digitsToNat

/-- Collect the matches of a global regex given a position matcher `f`
returning the matched text and the remainder: scan left to right, resume
after each match (`hf` is the guarantee that a match consumes input). -/
def matchesGo (f : Option Char → Text → Option (Text × Text)) :
    Nat → Option Char → Text → List Text
  | 0, _, _ => []
  | fuel + 1, prev, rest =>
    match f prev rest with
    | some (m, rem) => m :: matchesGo f fuel (some (m.getLastD ' ')) rem
    | none =>
      match rest with
      | [] => []
      | c :: cs => matchesGo f fuel (some c) cs

/-- All matches of a global regex over a text. The fuel `t.length + 1` is
adequate whenever every match of `f` consumes input, which the
`_consumes` theorems below establish for each matcher passed here. -/
def jsMatches (f : Option Char → Text → Option (Text × Text)) (t : Text) :
    List Text :=
  matchesGo f (t.length + 1) none t

theorem takeWhile_ne_nil_length_lt {α : Type} {p : α → Bool} {s : List α}
    (h : (s.takeWhile p).isEmpty = false) :
    (s.dropWhile p).length < s.length := by
  have hsplit : s.takeWhile p ++ s.dropWhile p = s :=
    List.takeWhile_append_dropWhile p s
  have hlen : (s.takeWhile p).length + (s.dropWhile p).length = s.length := by
    rw [← List.length_append, hsplit]
  have : (s.takeWhile p).length ≠ 0 := by
    intro h0
    rw [List.length_eq_zero] at h0
    rw [h0] at h
    simp at h
  omega

/-! ## Numeric token matchers

These model the global regexes
`/\b\d+(?:\.\d+)?(?:\s*(?:%|percent|million|...))?\b/gi` (consistency
engine) and `/\b\d+(?:\.\d+)?(?:\s*(?:million|billion|trillion|thousand))?\b/gi`,
`/\b(?:\$|USD|EUR)\s*\d+/gi`, `/\b\d+(?:\.\d+)?%/g` (risk analyzer),
including the backtracking of the optional fraction/suffix groups against
the trailing word boundary. -/

/-- Attempt the `\s*(?:s1|s2|...)` optional-suffix group at `rem`, with the
word boundary the regex requires after the suffix (suffix comparison is
case-insensitive; the returned match keeps the original characters). -/
def suffixTryAt (suffixes : List Text) (rem : Text) : Option (Text × Text) :=
  let ws := rem.takeWhile isSpaceChar
  let rem1 := rem.dropWhile isSpaceChar
  match suffixes.find? (fun s =>
      s.isPrefixOf (lowerText rem1) &&
      (wordness ((rem1.drop s.length).head?) != isWordChar (s.getLastD ' '))) with
  | some s => some (ws ++ rem1.take s.length, rem1.drop s.length)
  | none => none

/-- The optional fraction group `(?:\.\d+)?` at the position after the
digit run: the consumed fraction text and the remainder (no fraction when
no dot or no digit follows). -/
def fracSplit (r1 : Text) : Text × Text :=
  match r1 with
  | '.' :: r2 =>
    let fs := r2.takeWhile Char.isDigit
    if fs.isEmpty then ([], r1)
    else ('.' :: fs, r2.dropWhile Char.isDigit)
  | _ => ([], r1)

theorem fracSplit_snd_le (r1 : Text) : (fracSplit r1).2.length ≤ r1.length := by
  unfold fracSplit
  split
  · simp only []
    split
    · simp
    · refine Nat.le_trans (dropWhile_length_le Char.isDigit _) ?_
      simp only [List.length_cons]
      omega
  · simp

/-- Match, at one position, a number token of
`/\b\d+(?:\.\d+)?(?:\s*(?:suffixes))?\b/`: leading word boundary, maximal
digit run, optional fraction, optional whitespace-plus-suffix; the optional
groups backtrack when the trailing boundary fails, and the bare digit run
always has a trailing boundary when a fraction follows (the next character
is the dot). Returns the matched text and the remainder. -/
def numMatchAt (suffixes : List Text) (prev : Option Char) (rest : Text) :
    Option (Text × Text) :=
  if wordness prev then none
  else
    let ds := rest.takeWhile Char.isDigit
    if ds.isEmpty then none
    else
      let r1 := rest.dropWhile Char.isDigit
      let frac := (fracSplit r1).1
      let afterFrac := (fracSplit r1).2
      match suffixTryAt suffixes afterFrac with
      | some (sfx, remS) => some (ds ++ frac ++ sfx, remS)
      | none =>
        if frac.isEmpty then
          if wordness r1.head? then none else some (ds, r1)
        else
          if wordness afterFrac.head? then some (ds, r1)
          else some (ds ++ frac, afterFrac)

theorem suffixTryAt_length {suffixes : List Text} {rem m remS : Text}
    (h : suffixTryAt suffixes rem = some (m, remS)) :
    remS.length ≤ rem.length := by
  unfold suffixTryAt at h
  simp only [] at h
  split at h
  · rcases Option.some.inj h with h2
    have h3 : remS = (rem.dropWhile isSpaceChar).drop _ := congrArg Prod.snd h2.symm
    rw [h3]
    calc ((rem.dropWhile isSpaceChar).drop _).length
        ≤ (rem.dropWhile isSpaceChar).length := by
          rw [List.length_drop]; omega
      _ ≤ rem.length := dropWhile_length_le _ rem
  · cases h

theorem numMatchAt_consumes (suffixes : List Text)
    (prev : Option Char) (rest m rem : Text)
    (h : numMatchAt suffixes prev rest = some (m, rem)) :
    rem.length < rest.length := by
  unfold numMatchAt at h
  simp only [] at h
  split at h
  · cases h
  · split at h
    · cases h
    · rename_i hds
      have hr1 : (rest.dropWhile Char.isDigit).length < rest.length := by
        refine takeWhile_ne_nil_length_lt ?_
        cases hx : (rest.takeWhile Char.isDigit).isEmpty
        · rfl
        · exact absurd hx (by simp_all)
      have hfr := fracSplit_snd_le (rest.dropWhile Char.isDigit)
      split at h
      · rename_i sfx remS hsfx
        rcases Option.some.inj h with h2
        have hrem : rem = remS := congrArg Prod.snd h2.symm
        have h4 := suffixTryAt_length hsfx
        rw [hrem]
        omega
      · split at h
        · split at h
          · cases h
          · rcases Option.some.inj h with h2
            have hrem : rem = rest.dropWhile Char.isDigit :=
              congrArg Prod.snd h2.symm
            rw [hrem]; exact hr1
        · split at h
          · rcases Option.some.inj h with h2
            have hrem : rem = rest.dropWhile Char.isDigit :=
              congrArg Prod.snd h2.symm
            rw [hrem]; exact hr1
          · rcases Option.some.inj h with h2
            have hrem : rem = (fracSplit (rest.dropWhile Char.isDigit)).2 :=
              congrArg Prod.snd h2.symm
            rw [hrem]
            omega

/-- One alternative of `/\b(?:\$|USD|EUR)\s*\d+/gi` at a position: the
leading `\b` sits before the alternative's first character (so a `$` needs a
preceding word character, `USD`/`EUR` a non-word one), then optional
whitespace, then at least one digit. -/
def currencyAltAt (alt : Text) (prev : Option Char) (rest : Text) :
    Option (Text × Text) :=
  if alt.isPrefixOf (lowerText rest) &&
      (wordness prev != isWordChar (alt.headD ' ')) then
    let r := rest.drop alt.length
    let ws := r.takeWhile isSpaceChar
    let r1 := r.dropWhile isSpaceChar
    let ds := r1.takeWhile Char.isDigit
    if ds.isEmpty then none
    else some (rest.take alt.length ++ ws ++ ds, r1.dropWhile Char.isDigit)
  else none

/-- Match of `/\b(?:\$|USD|EUR)\s*\d+/gi` at one position (alternatives in
regex order). -/
def currencyMatchAt (prev : Option Char) (rest : Text) :
    Option (Text × Text) :=
  (currencyAltAt ("$").data prev rest).orElse (fun _ =>
    (currencyAltAt ("usd").data prev rest).orElse (fun _ =>
      currencyAltAt ("eur").data prev rest))

theorem currencyAltAt_consumes {alt : Text} {prev : Option Char}
    {rest m rem : Text} (halt : alt ≠ [])
    (h : currencyAltAt alt prev rest = some (m, rem)) :
    rem.length < rest.length := by
  unfold currencyAltAt at h
  simp only [] at h
  split at h
  · split at h
    · cases h
    · rcases Option.some.inj h with h2
      have hrem : rem = ((rest.drop alt.length).dropWhile isSpaceChar).dropWhile
          Char.isDigit := congrArg Prod.snd h2.symm
      rename_i hpre _
      have hlen : alt.length ≤ rest.length := by
        have := (List.isPrefixOf_iff_prefix.mp (Bool.and_eq_true_iff.mp hpre).1).length_le
        simpa [lowerText] using this
      have h1 : ((rest.drop alt.length).dropWhile isSpaceChar).length ≤
          (rest.drop alt.length).length := dropWhile_length_le _ _
      have h2l : (((rest.drop alt.length).dropWhile isSpaceChar).dropWhile
          Char.isDigit).length ≤
          ((rest.drop alt.length).dropWhile isSpaceChar).length :=
        dropWhile_length_le _ _
      have h3 : (rest.drop alt.length).length = rest.length - alt.length :=
        List.length_drop _ _
      have halt1 : 1 ≤ alt.length := by
        cases alt
        · exact absurd rfl halt
        · simp
      rw [hrem]
      omega
  · cases h

theorem currencyMatchAt_consumes (prev : Option Char) (rest m rem : Text)
    (h : currencyMatchAt prev rest = some (m, rem)) :
    rem.length < rest.length := by
  unfold currencyMatchAt at h
  rcases h1 : currencyAltAt ("$").data prev rest with _ | p1
  · rcases h2 : currencyAltAt ("usd").data prev rest with _ | p2
    · rcases h3 : currencyAltAt ("eur").data prev rest with _ | p3
      · rw [h1, h2, h3] at h; cases h
      · rw [h1, h2, h3] at h
        simp only [Option.orElse] at h
        rcases Option.some.inj h with rfl
        exact currencyAltAt_consumes (by decide) h3
    · rw [h1, h2] at h
      simp only [Option.orElse] at h
      rcases Option.some.inj h with rfl
      exact currencyAltAt_consumes (by decide) h2
  · rw [h1] at h
    simp only [Option.orElse] at h
    rcases Option.some.inj h with rfl
    exact currencyAltAt_consumes (by decide) h1

/-- Match of `/\b\d+(?:\.\d+)?%/g` at one position: leading boundary, digit
run, optional fraction, a literal percent sign, no trailing boundary. A
present fraction cannot backtrack into a match (the character after the
digit run is the dot, not a percent sign). -/
def percentMatchAt (prev : Option Char) (rest : Text) :
    Option (Text × Text) :=
  if wordness prev then none
  else
    let ds := rest.takeWhile Char.isDigit
    if ds.isEmpty then none
    else
      let r1 := rest.dropWhile Char.isDigit
      let frac := (fracSplit r1).1
      let afterFrac := (fracSplit r1).2
      if frac.isEmpty then
        match r1 with
        | '%' :: r2 => some (ds ++ ['%'], r2)
        | _ => none
      else
        match afterFrac with
        | '%' :: r2 => some (ds ++ frac ++ ['%'], r2)
        | _ => none

theorem percentMatchAt_consumes (prev : Option Char) (rest m rem : Text)
    (h : percentMatchAt prev rest = some (m, rem)) :
    rem.length < rest.length := by
  unfold percentMatchAt at h
  simp only [] at h
  split at h
  · cases h
  · split at h
    · cases h
    · rename_i hds
      have hr1 : (rest.dropWhile Char.isDigit).length < rest.length := by
        refine takeWhile_ne_nil_length_lt ?_
        cases hx : (rest.takeWhile Char.isDigit).isEmpty
        · rfl
        · exact absurd hx (by simp_all)
      have hfr := fracSplit_snd_le (rest.dropWhile Char.isDigit)
      split at h
      · split at h
        · rename_i r2 heq
          rcases Option.some.inj h with h2
          have hrem : rem = r2 := congrArg Prod.snd h2.symm
          have : r2.length < (rest.dropWhile Char.isDigit).length := by
            rw [heq]; simp
          rw [hrem]; omega
        · cases h
      · split at h
        · rename_i r2 heq
          rcases Option.some.inj h with h2
          have hrem : rem = r2 := congrArg Prod.snd h2.symm
          have : r2.length < (fracSplit (rest.dropWhile Char.isDigit)).2.length := by
            rw [heq]; simp
          rw [hrem]; omega
        · cases h

/-! ## Proper-noun matcher (`/\b[A-Z][a-z]+(?:\s+[A-Z][a-z]+)*\b/g`) -/

/-- Parse one `[A-Z][a-z]+` unit: an uppercase letter followed by at least
one lowercase letter (maximal run). -/
def parseUnit : Text → Option (Text × Text)
  | [] => none
  | c :: cs =>
    if c.isUpper then
      let ls := cs.takeWhile Char.isLower
      if ls.isEmpty then none
      else some (c :: ls, cs.dropWhile Char.isLower)
    else none

theorem parseUnit_consumes {s u s2 : Text} (h : parseUnit s = some (u, s2)) :
    s2.length < s.length := by
  cases s with
  | nil => cases h
  | cons c cs =>
    unfold parseUnit at h
    simp only [] at h
    split at h
    · split at h
      · cases h
      · rcases Option.some.inj h with h2
        have hrem : s2 = cs.dropWhile Char.isLower := congrArg Prod.snd h2.symm
        have := dropWhile_length_le Char.isLower cs
        rw [hrem]
        simp only [List.length_cons]
        omega
    · cases h

/-- The checkpoints of the greedy `(?:\s+[A-Z][a-z]+)*` group: every
(matched-so-far, remainder) state reachable by extending with
whitespace-plus-unit, in extension order. -/
def properCheckpoints : Nat → Text → Text → List (Text × Text)
  | 0, acc, s => [(acc, s)]
  | fuel + 1, acc, s =>
    (acc, s) ::
    (let ws := s.takeWhile isSpaceChar
     if ws.isEmpty then []
     else
       match parseUnit (s.dropWhile isSpaceChar) with
       | none => []
       | some (u, s2) => properCheckpoints fuel (acc ++ ws ++ u) s2)

theorem properCheckpoints_rem_le :
    ∀ (fuel : Nat) (acc s : Text),
      ∀ cp ∈ properCheckpoints fuel acc s, cp.2.length ≤ s.length := by
  intro fuel
  induction fuel with
  | zero =>
    intro acc s cp hcp
    simp only [properCheckpoints] at hcp
    simp at hcp
    rw [hcp]
  | succ n ih =>
    intro acc s cp hcp
    rw [properCheckpoints] at hcp
    rcases List.mem_cons.mp hcp with rfl | htail
    · exact Nat.le_refl _
    · simp only [] at htail
      split at htail
      · cases htail
      · rename_i hws
        split at htail
        · cases htail
        · rename_i u s2 hu
          have hws2 : (s.takeWhile isSpaceChar).isEmpty = false := by
            cases hx : (s.takeWhile isSpaceChar).isEmpty
            · rfl
            · exact absurd hx hws
          have h1 : (s.dropWhile isSpaceChar).length < s.length :=
            takeWhile_ne_nil_length_lt hws2
          have h2 := parseUnit_consumes hu
          have h3 := ih _ s2 cp htail
          omega

/-- Match of the proper-noun regex at one position: leading boundary, one
unit, then greedily as many whitespace-separated units as possible,
backtracking group by group until the trailing boundary holds. -/
def properMatchAt (prev : Option Char) (rest : Text) :
    Option (Text × Text) :=
  if wordness prev then none
  else
    match parseUnit rest with
    | none => none
    | some (u, s1) =>
      (properCheckpoints (s1.length + 1) u s1).reverse.find?
        (fun cp => !(wordness cp.2.head?))

theorem properMatchAt_consumes (prev : Option Char) (rest m rem : Text)
    (h : properMatchAt prev rest = some (m, rem)) :
    rem.length < rest.length := by
  unfold properMatchAt at h
  split at h
  · cases h
  · split at h
    · cases h
    · rename_i u s1 hu
      have hmem : (m, rem) ∈ (properCheckpoints (s1.length + 1) u s1).reverse :=
        List.mem_of_find?_eq_some h
      rw [List.mem_reverse] at hmem
      have h1 := properCheckpoints_rem_le (s1.length + 1) u s1 (m, rem) hmem
      have h2 := parseUnit_consumes hu
      simp only [] at h1
      omega

/-- The matches of `/\b[A-Z][a-z]+(?:\s+[A-Z][a-z]+)*\b/g`. -/
def properNounMatches (t : Text) : List Text :=
  jsMatches properMatchAt t

/-! ## Risk analyzer pattern vocabulary
(`src/engines/hallucination/risk-analyzer.ts`) -/

/-- The characters of a list of string literals (phrase alternations are
written lowercased; case-insensitive regexes are applied to lowercased
text). -/
def phs (l : List String) : List Text := l.map (fun s => s.data)

/-- The apostrophe character (used in the contraction phrases). -/
def apos : Char := Char.ofNat 39

/-- A contraction phrase such as `isn` + apostrophe + `t`. -/
def contraction (a b : String) : Text := a.data ++ apos :: b.data

/-- `OVERCONFIDENT_PATTERNS`, one phrase list per regex. -/
def OVERCONFIDENT_PATTERNS : List (List Text) :=
  [phs (["absolutely", "definitely", "certainly", "undoubtedly", "unquestionably"]),
   phs (["100%", "guaranteed", "proven fact", "without doubt"]),
   phs (["always", "never", "impossible", "inevitable"]),
   phs (["no doubt", "beyond question", "indisputable"]),
   phs (["everyone knows", "it is certain", "there is no question"])]

/-- `FAKE_AUTHORITY_PATTERNS`, one phrase list per regex; the nested
optional group of the second regex is expanded into its nine literal
alternatives. -/
def FAKE_AUTHORITY_PATTERNS : List (List Text) :=
  [phs (["studies show", "research proves", "scientists confirm", "experts agree"]),
   phs (["according to study", "according to research", "according to survey",
         "according to a study", "according to a research", "according to a survey",
         "according to recent study", "according to recent research",
         "according to recent survey"]),
   phs (["it has been proven", "it has been shown", "it has been demonstrated"]),
   phs (["universally accepted", "widely known", "common knowledge"])]

/-- The hedging phrase lists of `detectHedging`. -/
def HEDGING_PATTERNS : List (List Text) :=
  [phs (["may", "might", "could", "possibly", "perhaps", "probably"]),
   phs (["suggests", "indicates", "appears", "seems"]),
   phs (["approximately", "about", "around", "roughly", "estimated"]),
   phs (["in my opinion", "i think", "i believe"]),
   phs (["it is possible", "there is a chance"])]

/-! ## Fabricated-statistic pattern scanners -/

/-- `/\b\d{1,2}\.\d{1,2}%\b/` at one position: one or two digits, a dot, one
or two digits, a percent sign; both digit groups must end where the literal
that follows them requires, and the trailing `\b` after `%` (a non-word
character) demands a following word character. -/
def precisePercentAt (prev : Option Char) (rest : Text) : Bool :=
  !(wordness prev) &&
  (let ds := rest.takeWhile Char.isDigit
   decide (1 ≤ ds.length) && decide (ds.length ≤ 2) &&
   (match rest.dropWhile Char.isDigit with
    | '.' :: r2 =>
      let fs := r2.takeWhile Char.isDigit
      decide (1 ≤ fs.length) && decide (fs.length ≤ 2) &&
      (match r2.dropWhile Char.isDigit with
       | '%' :: r4 => wordness r4.head?
       | _ => false)
    | _ => false))

/-- `/\bexactly \d+/i` at one position (on lowercased text). -/
def exactlyNumAt (prev : Option Char) (rest : Text) : Bool :=
  !(wordness prev) && (("exactly ").data).isPrefixOf rest &&
  (match (rest.drop 8).head? with
   | some c => c.isDigit
   | none => false)

/-- Consume the maximal chain of `,ddd` groups, returning their number and
the remainder. -/
def commaGroupsSplit : Text → Nat × Text
  | ',' :: d1 :: d2 :: d3 :: rest =>
    if d1.isDigit && d2.isDigit && d3.isDigit then
      let nr := commaGroupsSplit rest
      (nr.1 + 1, nr.2)
    else (0, ',' :: d1 :: d2 :: d3 :: rest)
  | s => (0, s)

/-- `/\b\d{4,}(?:,\d{3})+\b/` at one position: at least four digits, then at
least one `,ddd` group. With two or more groups the trailing boundary can
always be recovered by backtracking one group (the next character is the
comma of the dropped group); with exactly one group the boundary after it
must hold. -/
def commaGroupedAt (prev : Option Char) (rest : Text) : Bool :=
  !(wordness prev) &&
  (let ds := rest.takeWhile Char.isDigit
   decide (4 ≤ ds.length) &&
   (let gs := commaGroupsSplit (rest.dropWhile Char.isDigit)
    decide (1 ≤ gs.1) && (decide (2 ≤ gs.1) || !(wordness gs.2.head?))))

/-- `/\b(?:9[5-9]|100)(?:\.\d+)?%/` at one position. -/
def highPercentAt (prev : Option Char) (rest : Text) : Bool :=
  !(wordness prev) &&
  (let core : Option Text :=
     match rest with
     | '9' :: c :: r => if decide ('5' ≤ c) && decide (c ≤ '9') then some r else none
     | _ => if (("100").data).isPrefixOf rest then some (rest.drop 3) else none
   match core with
   | none => false
   | some r =>
     if (fracSplit r).1.isEmpty then
       match r with
       | '%' :: _ => true
       | _ => false
     else
       match (fracSplit r).2 with
       | '%' :: _ => true
       | _ => false)

/-- `detectFabricatedStatistics`: 0.3 per matched pattern, plus 0.1 per
boundary-delimited digit run longer than three digits ending in 1, 3, 7 or
9, capped at 1. -/
def detectFabricatedStatistics (t : Text) : ℚ :=
  let patternRisk : ℚ :=
    (if scanPos precisePercentAt none t then 0.3 else 0) +
    (if scanPos exactlyNumAt none (lowerText t) then 0.3 else 0) +
    (if scanPos commaGroupedAt none t then 0.3 else 0) +
    (if scanPos highPercentAt none t then 0.3 else 0)
  let runs := (boundedRuns Char.isDigit none t).filter (fun r => decide (3 ≤ r.length))
  let suspicious := runs.filter (fun r =>
    decide (3 < r.length) &&
    (match r.getLast? with
     | some c => c = '1' || c = '3' || c = '7' || c = '9'
     | none => false))
  min 1 (patternRisk + (suspicious.length : ℚ) * 0.1)

/-- `detectOverconfidence`: 0.25 per matched pattern; more than one
exclamation mark adds 0.1 per exclamation mark; ALL-CAPS words of length at
least four add 0.1 each; capped at 1. -/
def detectOverconfidence (t : Text) : ℚ :=
  let lt := lowerText t
  let patternRisk : ℚ :=
    (OVERCONFIDENT_PATTERNS.map (fun p => if testPattern p lt then (0.25 : ℚ) else 0)).sum
  let excl := t.count '!'
  let exclRisk : ℚ := if 1 < excl then 0.1 * (excl : ℚ) else 0
  let caps := ((boundedRuns Char.isUpper none t).filter (fun r => decide (4 ≤ r.length))).length
  let capsRisk : ℚ := if 0 < caps then 0.1 * (caps : ℚ) else 0
  min 1 (patternRisk + exclRisk + capsRisk)

/-- `/\b(?:Dr\.|Prof\.|[A-Z][a-z]+ et al\.|\(\d{4}\)|\[\d+\])/i` at one
position (on lowercased text). The leading `\b` sits before the
alternative's first character, so the parenthesis and bracket alternatives
require a preceding word character. -/
def namedCitationAt (prev : Option Char) (rest : Text) : Bool :=
  (!(wordness prev) && (("dr.").data).isPrefixOf rest) ||
  (!(wordness prev) && (("prof.").data).isPrefixOf rest) ||
  (!(wordness prev) &&
    (let ls := rest.takeWhile Char.isAlpha
     decide (2 ≤ ls.length) &&
     ((" et al.").data).isPrefixOf (rest.dropWhile Char.isAlpha))) ||
  (wordness prev &&
    (match rest with
     | '(' :: a :: b :: c :: d :: ')' :: _ =>
       a.isDigit && b.isDigit && c.isDigit && d.isDigit
     | _ => false)) ||
  (wordness prev &&
    (match rest with
     | '[' :: r =>
       !(r.takeWhile Char.isDigit).isEmpty &&
       (match r.dropWhile Char.isDigit with
        | ']' :: _ => true
        | _ => false)
     | _ => false))

/-- `detectFakeAuthority`: 0.2 per matched authority pattern; generic
references to experts/scientists/researchers/studies without a named
citation add 0.2; many/most-people appeals add 0.15; capped at 1. -/
def detectFakeAuthority (t : Text) : ℚ :=
  let lt := lowerText t
  let patternRisk : ℚ :=
    (FAKE_AUTHORITY_PATTERNS.map (fun p => if testPattern p lt then (0.2 : ℚ) else 0)).sum
  let vagueRisk : ℚ :=
    if testPattern (phs (["experts", "scientists", "researchers", "studies"])) lt &&
        !(scanPos namedCitationAt none lt) then 0.2 else 0
  let peopleRisk : ℚ :=
    if testPattern (phs (["many people", "most people", "everyone", "nobody"])) lt
    then 0.15 else 0
  min 1 (patternRisk + vagueRisk + peopleRisk)

/-- `detectTemporalIssues` (the current year is a model parameter: the
source reads it from the clock): 0.3 per extracted year beyond the current
year; 0.4 more when before/prior-to/preceded phrasing accompanies a
first-mentioned year larger than the second; capped at 1. -/
def detectTemporalIssues (currentYear : Nat) (t : Text) : ℚ :=
  let years := yearMatches t
  let futureRisk : ℚ := 0.3 * ((years.filter (fun y => decide (currentYear < y))).length : ℚ)
  let orderRisk : ℚ :=
    if decide (2 ≤ years.length) &&
        containsPlain (phs (["before", "prior to", "preceded"])) (lowerText t) &&
        decide ((years.headD 0) > ((years.drop 1).headD 0)) then 0.4 else 0
  min 1 (futureRisk + orderRisk)

/-- The word suffixes of the risk analyzer's first numerical-claim regex. -/
def NUM_CLAIM_SUFFIXES : List Text :=
  phs (["million", "billion", "trillion", "thousand"])

/-- `detectNumericalRisk`: numeric/currency/percentage token density above
0.15 adds 0.3; round numbers add 0.05 (multiples of 100 above 100) and 0.1
(multiples of 1000 above 1000); capped at 1. -/
def detectNumericalRisk (t : Text) : ℚ :=
  let numbers := jsMatches (numMatchAt NUM_CLAIM_SUFFIXES) t
  let currencies := jsMatches currencyMatchAt t
  let percentages := jsMatches percentMatchAt t
  let total := numbers.length + currencies.length + percentages.length
  let words := jsSplitCount t
  let densityRisk : ℚ := if (0.15 : ℚ) < (total : ℚ) / (words : ℚ) then 0.3 else 0
  let roundRisk : ℚ := numbers.foldl (fun acc num =>
    let n := parseIntJs (num.filter (fun c => c ≠ ','))
    acc + (if 100 < n ∧ n % 100 = 0 then 0.05 else 0) +
      (if 1000 < n ∧ n % 1000 = 0 then 0.1 else 0)) 0
  min 1 (densityRisk + roundRisk)

/-- `detectHedging`: 0.2 per matched hedging pattern, capped at 1. -/
def detectHedging (t : Text) : ℚ :=
  let lt := lowerText t
  min 1 ((HEDGING_PATTERNS.map (fun p => if testPattern p lt then (0.2 : ℚ) else 0)).sum)

/-- The month names of the full-date regex. -/
def MONTHS : List Text :=
  phs (["january", "february", "march", "april", "may", "june", "july",
        "august", "september", "october", "november", "december"])

/-- The full-calendar-date regex
`/\b(?:January|...)\s+\d{1,2},?\s+\d{4}\b/i` at one position (on
lowercased text). -/
def dateAt (prev : Option Char) (rest : Text) : Bool :=
  MONTHS.any (fun m =>
    let r0 := rest.drop m.length
    let r1 := r0.dropWhile isSpaceChar
    let day := r1.takeWhile Char.isDigit
    let r2 := r1.dropWhile Char.isDigit
    let r3 := match r2 with
      | ',' :: rr => rr
      | _ => r2
    let r4 := r3.dropWhile isSpaceChar
    let yr := r4.takeWhile Char.isDigit
    !(wordness prev) && m.isPrefixOf rest &&
    !(r0.takeWhile isSpaceChar).isEmpty &&
    decide (1 ≤ day.length) && decide (day.length ≤ 2) &&
    !(r3.takeWhile isSpaceChar).isEmpty &&
    decide (yr.length = 4) && !(wordness (r4.dropWhile Char.isDigit).head?))

/-- The loose citation test `/\(\d{4}\)|\[\d+\]|et al\./i` at one position
(no boundary assertions). -/
def citationLooseAt (_prev : Option Char) (rest : Text) : Bool :=
  (match rest with
   | '(' :: a :: b :: c :: d :: ')' :: _ =>
     a.isDigit && b.isDigit && c.isDigit && d.isDigit
   | _ => false) ||
  (match rest with
   | '[' :: r =>
     !(r.takeWhile Char.isDigit).isEmpty &&
     (match r.dropWhile Char.isDigit with
      | ']' :: _ => true
      | _ => false)
   | _ => false) ||
  (("et al.").data).isPrefixOf rest

/-- The URL test `/https?:\/\/\S+/i` at one position. -/
def urlAt (_prev : Option Char) (rest : Text) : Bool :=
  ((("https://").data).isPrefixOf rest &&
    (match (rest.drop 8).head? with
     | some c => !(isSpaceChar c)
     | none => false)) ||
  ((("http://").data).isPrefixOf rest &&
    (match (rest.drop 7).head? with
     | some c => !(isSpaceChar c)
     | none => false))

/-- `detectSpecificity`: base 0.3, plus up to 0.3 for proper-noun-like
tokens (0.1 each), 0.2 for a full calendar date, 0.2 for a citation-like
pattern, 0.1 for a URL; capped at 1. -/
def detectSpecificity (t : Text) : ℚ :=
  let properRisk : ℚ := min 0.3 (((properNounMatches t).length : ℚ) * 0.1)
  let dateRisk : ℚ := if scanPos dateAt none (lowerText t) then 0.2 else 0
  let citeRisk : ℚ := if scanPos citationLooseAt none (lowerText t) then 0.2 else 0
  let urlRisk : ℚ := if scanPos urlAt none (lowerText t) then 0.1 else 0
  min 1 (0.3 + properRisk + dateRisk + citeRisk + urlRisk)

/-! ## Claims and the risk analyzer (`src/types/results.ts`,
`src/engines/hallucination/risk-analyzer.ts`) -/

/-- `ConfidenceScore` (the optional `factors` record is not read by any
embedded code path and is omitted). The `method` union is kept as its
literal string. -/
structure ConfidenceScore where
  value : ℚ
  interval : ℚ × ℚ
  method : String
deriving DecidableEq, Repr

/-- A claim's `riskIndicators` record: the four declared fields plus the
four ad hoc properties the risk analyzer attaches at runtime (absent until
attached). -/
structure RiskIndicators where
  lackOfSpecificity : ℚ
  missingCitation : Bool
  vagueLanguage : Bool
  contradictionSignal : Bool
  fabricatedStatRisk : Option ℚ := none
  overconfidenceRisk : Option ℚ := none
  fakeAuthorityRisk : Option ℚ := none
  combinedRisk : Option ℚ := none
deriving DecidableEq, Repr

/-- `Claim` from `src/types/results.ts` (the `type` union is kept as its
literal string). -/
structure Claim where
  text : Text
  span : Nat × Nat
  type : String
  verifiable : Bool
  riskIndicators : RiskIndicators
  confidence : ConfidenceScore
  limitations : List String
deriving DecidableEq, Repr

/-- `analyzeRiskIndicators` (the unused `_config` parameter is kept; the
current year is a model parameter: the source reads it from the clock
inside `detectTemporalIssues`). -/
def analyzeRiskIndicators (currentYear : Nat) (claim : Claim)
    (_config : Config) : Claim :=
  let text := claim.text
  let fabricatedStatRisk := detectFabricatedStatistics text
  let overconfidenceRisk := detectOverconfidence text
  let fakeAuthorityRisk := detectFakeAuthority text
  let temporalRisk := detectTemporalIssues currentYear text
  let numericalRisk := detectNumericalRisk text
  let hedgingScore := detectHedging text
  let specificitScore := detectSpecificity text
  let combinedRisk :=
    fabricatedStatRisk * 0.25 +
    overconfidenceRisk * 0.20 +
    fakeAuthorityRisk * 0.20 +
    temporalRisk * 0.10 +
    numericalRisk * 0.15 +
    (1 - hedgingScore) * 0.05 +
    (1 - specificitScore) * 0.05
  let updatedSpecificity :=
    max claim.riskIndicators.lackOfSpecificity (1 - specificitScore)
  { claim with
    riskIndicators :=
      { claim.riskIndicators with
        lackOfSpecificity := updatedSpecificity
        fabricatedStatRisk := some fabricatedStatRisk
        overconfidenceRisk := some overconfidenceRisk
        fakeAuthorityRisk := some fakeAuthorityRisk
        combinedRisk := some combinedRisk } }

/-- The nine negation-pattern families of the claim-level
`detectContradiction` (positive phrases, negative phrases). -/
def hallNegationPatterns : List (List Text × List Text) :=
  [(phs (["is"]), [("is not").data, contraction "isn" "t"]),
   (phs (["will"]), [("will not").data, contraction "won" "t"]),
   (phs (["can"]), [("cannot").data, contraction "can" "t"]),
   (phs (["does"]), [("does not").data, contraction "doesn" "t"]),
   (phs (["has"]), [("has not").data, contraction "hasn" "t"]),
   (phs (["true"]), phs (["false"])),
   (phs (["yes"]), phs (["no"])),
   (phs (["always"]), phs (["never"])),
   (phs (["all"]), phs (["none"]))]

/-- One family contradicts a pair of texts when one side matches the
positive form and the other the negative form. -/
def crossMatch (pat : List Text × List Text) (t1 t2 : Text) : Bool :=
  (testPattern pat.1 t1 && testPattern pat.2 t2) ||
  (testPattern pat.2 t1 && testPattern pat.1 t2)

/-- `detectContradiction` between two claims: lowercase both texts, test the
nine families, and require at least two shared content words longer than
four characters (the shared-word check does not depend on the family, so
the per-family loop is equivalent to this conjunction). -/
def detectContradiction (claim1 claim2 : Claim) : Bool :=
  let text1 := lowerText claim1.text
  let text2 := lowerText claim2.text
  hallNegationPatterns.any (fun pat =>
    crossMatch pat text1 text2 && decide (2 ≤ overlapCount text1 text2))

/-- The contradicting index pairs `checkContradictions` collects: every
`(i, j)` with `i < j` whose claims contradict. -/
def contradictionPairs (claims : List Claim) : List (Nat × Nat) :=
  claims.enum.bind (fun a =>
    claims.enum.filterMap (fun b =>
      if a.1 < b.1 && detectContradiction a.2 b.2 then some (a.1, b.1)
      else none))

/-- `checkContradictions`: collect the contradicting index pairs, then mark
`contradictionSignal` on every claim involved in at least one pair, passing
uninvolved claims through unchanged. -/
def checkContradictions (claims : List Claim) : List Claim :=
  claims.enum.map (fun ic =>
    if (contradictionPairs claims).any (fun p => p.1 = ic.1 || p.2 = ic.1) then
      { ic.2 with
        riskIndicators := { ic.2.riskIndicators with contradictionSignal := true } }
    else ic.2)

/-! ## Similarity and text utilities

Modelled from the spec: the similarity/text utilities module
(`src/utils/similarity`, `src/utils/text`) is not among the provided
sources; `jaccardSimilarity`, `cosineSimilarity`, `combinedSimilarity` and
`splitParagraphs` below follow the spec's definitions (case-insensitive
token-set intersection over union with the empty/empty convention;
case-insensitive term-frequency cosine with zero for an empty input; the
fixed 0.4/0.6 weighting; paragraph splitting on blank-line boundaries with
trimming and removal of empty sections). -/

/-- A structural (kernel-reducible) integer square root: the largest `k`
with `k * k ≤ n`. -/
def natSqrt (n : Nat) : Nat :=
  (List.range (n + 1)).foldl (fun acc k => if k * k ≤ n then k else acc) 0

/-- The square root of the floating-point cosine computation, modelled over
`ℚ`: exact on perfect squares (numerator and denominator), a floor
approximation otherwise. Every concrete instance evaluated in this file has
perfect-square norms, and no universal theorem depends on the approximate
branch. -/
def ratSqrt (q : ℚ) : ℚ :=
  (natSqrt q.num.toNat : ℚ) / (natSqrt q.den : ℚ)

/-- Modelled from the spec: the case-insensitive tokens of a text. -/
def tokensOf (t : Text) : List Text := splitWs (lowerText t)

/-- Modelled from the spec: `jaccardSimilarity` — token-set intersection
over union, `1` when both token sets are empty. -/
def jaccardSimilarity (a b : Text) : ℚ :=
  let ta := firstDedup (tokensOf a)
  let tb := firstDedup (tokensOf b)
  if ta.isEmpty && tb.isEmpty then 1
  else
    let inter := ta.filter (fun w => tb.contains w)
    let union := firstDedup (ta ++ tb)
    (inter.length : ℚ) / (union.length : ℚ)

/-- Modelled from the spec: `cosineSimilarity` — case-insensitive
term-frequency cosine, `0` when either input has no tokens. -/
def cosineSimilarity (a b : Text) : ℚ :=
  let ta := tokensOf a
  let tb := tokensOf b
  if ta.isEmpty || tb.isEmpty then 0
  else
    let vocab := firstDedup (ta ++ tb)
    let dot : Nat := (vocab.map (fun w => ta.count w * tb.count w)).sum
    let na : Nat := (vocab.map (fun w => ta.count w * ta.count w)).sum
    let nb : Nat := (vocab.map (fun w => tb.count w * tb.count w)).sum
    (dot : ℚ) / (ratSqrt (na : ℚ) * ratSqrt (nb : ℚ))

/-- Modelled from the spec: `combinedSimilarity` — the fixed 0.4/0.6
weighting of Jaccard and cosine similarity. -/
def combinedSimilarity (a b : Text) : ℚ :=
  0.4 * jaccardSimilarity a b + 0.6 * cosineSimilarity a b

/-- Split at each blank-line boundary. -/
def splitParasGo (cur : Text) : Text → List Text
  | [] => [cur.reverse]
  | '\n' :: '\n' :: rest => cur.reverse :: splitParasGo [] rest
  | c :: rest => splitParasGo (c :: cur) rest

/-- Character-level trim of the space characters at both ends. -/
def trimText (t : Text) : Text :=
  ((t.dropWhile isSpaceChar).reverse.dropWhile isSpaceChar).reverse

/-- Modelled from the spec: `splitParagraphs` — split content into
non-empty trimmed sections on blank-line boundaries. -/
def splitParagraphs (content : Text) : List Text :=
  ((splitParasGo [] content).map trimText).filter (fun s => !s.isEmpty)

/-! ## Consistency engine (`src/engines/consistency/index.ts`) -/

/-- `POSITIVE_SENTIMENT` vocabulary. -/
def POSITIVE_SENTIMENT : List Text :=
  phs (["good", "great", "excellent", "amazing", "wonderful", "fantastic",
        "love", "happy", "pleased", "satisfied", "success", "benefit",
        "advantage", "improve", "best"])

/-- `NEGATIVE_SENTIMENT` vocabulary. -/
def NEGATIVE_SENTIMENT : List Text :=
  phs (["bad", "terrible", "awful", "horrible", "hate", "angry",
        "frustrated", "disappointed", "failure", "problem", "issue",
        "worst", "damage", "harm", "risk"])

/-- `FORMAL_MARKERS` vocabulary (the `NEUTRAL_MARKERS` constant of the
source is never read and is omitted). -/
def FORMAL_MARKERS : List Text :=
  phs (["therefore", "furthermore", "consequently", "moreover", "thus",
        "hence", "accordingly", "subsequently", "notwithstanding"])

/-- `INFORMAL_MARKERS` vocabulary. -/
def INFORMAL_MARKERS : List Text :=
  phs (["gonna", "wanna", "kinda", "sorta", "yeah", "nope", "cool",
        "awesome", "stuff", "things", "basically", "literally", "actually",
        "like"])

/-- `TECHNICAL_MARKERS` vocabulary. -/
def TECHNICAL_MARKERS : List Text :=
  phs (["algorithm", "function", "parameter", "variable", "implementation",
        "interface", "protocol", "architecture", "framework", "module",
        "api", "database", "server", "client"])

/-- The suffix alternatives of the consistency engine's
`NUMERICAL_PATTERN`. -/
def CONSISTENCY_NUM_SUFFIXES : List Text :=
  ("%").data :: phs (["percent", "million", "billion", "thousand", "hundred"])

/-- `Contradiction` from `src/types/results.ts` (the `type` union is kept as
its literal string). -/
structure Contradiction where
  section1 : Nat
  section2 : Nat
  claim1 : Text
  claim2 : Text
  type : String
  confidence : ℚ
deriving DecidableEq, Repr

/-- `ConsistencyResult` from `src/types/results.ts`. -/
structure ConsistencyResult where
  sections : List Text
  avgSimilarity : ℚ
  similarityMatrix : Option (List (List ℚ))
  stable : Bool
  drift : Bool
  contradictions : List Contradiction
  confidence : ConfidenceScore
  limitations : List String
  methodology : String
deriving DecidableEq, Repr

/-- The engine's fixed `LIMITATIONS` list. -/
def CONSISTENCY_LIMITATIONS : List String :=
  ["Pattern-based consistency checking",
   "May miss subtle contradictions",
   "English language only",
   "Context-dependent accuracy",
   "Requires sufficient text length for meaningful analysis"]

/-- The engine's fixed `METHODOLOGY` string. -/
def CONSISTENCY_METHODOLOGY : String :=
  "Analyzes text sections for internal consistency using similarity metrics, sentiment analysis, style detection, and contradiction pattern matching. Identifies potential logical conflicts, semantic drift, tone shifts, and numerical inconsistencies across sections."

/-- `calculateSentiment`: positive minus negative vocabulary matches over
their total, `0` with no matches. -/
def calculateSentiment (text : Text) : ℚ :=
  let positiveMatches := countPattern POSITIVE_SENTIMENT (lowerText text)
  let negativeMatches := countPattern NEGATIVE_SENTIMENT (lowerText text)
  let total := positiveMatches + negativeMatches
  if total = 0 then 0
  else ((positiveMatches : ℚ) - (negativeMatches : ℚ)) / (total : ℚ)

/-- `detectSentimentDrift`: flag when the average sentiment of the first
half of the sections differs from the second half by more than 0.4. -/
def detectSentimentDrift (sections : List Text) : Bool :=
  if sections.length < 2 then false
  else
    let sentiments := sections.map calculateSentiment
    let firstHalf := sentiments.take (sentiments.length / 2)
    let secondHalf := sentiments.drop (sentiments.length / 2)
    let avgFirst := firstHalf.sum / (firstHalf.length : ℚ)
    let avgSecond := secondHalf.sum / (secondHalf.length : ℚ)
    decide ((0.4 : ℚ) < |avgFirst - avgSecond|)

/-- `calculateStyleScore`: formal (plus half-weighted technical) versus
informal vocabulary, `0` with no matches. -/
def calculateStyleScore (text : Text) : ℚ :=
  let formalMatches := countPattern FORMAL_MARKERS (lowerText text)
  let informalMatches := countPattern INFORMAL_MARKERS (lowerText text)
  let technicalMatches := countPattern TECHNICAL_MARKERS (lowerText text)
  let adjustedFormal : ℚ := (formalMatches : ℚ) + (technicalMatches : ℚ) * 0.5
  let total : ℚ := adjustedFormal + (informalMatches : ℚ)
  if total = 0 then 0 else (adjustedFormal - (informalMatches : ℚ)) / total

/-- `detectStyleDrift`: flag when the first and last sections' style scores
differ by more than 0.5. -/
def detectStyleDrift (sections : List Text) : Bool :=
  if sections.length < 2 then false
  else
    let styles := sections.map calculateStyleScore
    decide ((0.5 : ℚ) < |styles.headD 0 - styles.getLastD 0|)

/-- `detectLengthDrift`: flag when any section's length is below 20% or
above 500% of the mean section length. -/
def detectLengthDrift (sections : List Text) : Bool :=
  if sections.length < 2 then false
  else
    let lengths := sections.map (fun s => (s.length : ℚ))
    let avgLength := lengths.sum / (lengths.length : ℚ)
    lengths.any (fun len =>
      decide (len / avgLength < 0.2) || decide (5 < len / avgLength))

/-- `String.prototype.indexOf` restricted to a non-negative result: the
first index where the needle occurs. -/
def indexOfSubGo (needle : Text) : Nat → Text → Option Nat
  | i, hay =>
    if needle.isPrefixOf hay then some i
    else
      match hay with
      | [] => none
      | _ :: t => indexOfSubGo needle (i + 1) t

/-- First occurrence index of a sub-list. -/
def indexOfSub (needle hay : Text) : Option Nat := indexOfSubGo needle 0 hay

/-- `Array.prototype.join` with a single space. -/
def joinSpace : List Text → Text
  | [] => []
  | [w] => w
  | w :: ws => w ++ ' ' :: joinSpace ws

/-- The context key of one extracted number: up to fifty characters of
context on each side of the number's first occurrence, lowercased, reduced
to at most five words longer than four characters, joined with spaces. -/
def contextOf (sec : Text) (num : Text) : Text :=
  match indexOfSub num sec with
  | none => []
  | some index =>
    let start := index - 50
    let before := (sec.drop start).take (index - start)
    let after := (sec.drop (index + num.length)).take 50
    joinSpace (((splitWs (lowerText (before ++ ' ' :: after))).filter
      (fun w => 4 < w.length)).take 5)

/-- Insertion-ordered map update, as a JavaScript `Map` behaves: append the
occurrence to an existing key or add the key at the end. -/
def insertOcc (m : List (Text × List (Text × Nat))) (key : Text)
    (occ : Text × Nat) : List (Text × List (Text × Nat)) :=
  match m with
  | [] => [(key, [occ])]
  | (k, os) :: rest =>
    if k = key then (k, os ++ [occ]) :: rest
    else (k, os) :: insertOcc rest key occ

/-- `numbersByContext`: every extracted number of every section, grouped by
its context key (keys with an empty context are skipped). -/
def numbersByContext (sections : List Text) :
    List (Text × List (Text × Nat)) :=
  sections.enum.foldl (fun m is =>
    let nums := jsMatches (numMatchAt CONSISTENCY_NUM_SUFFIXES) is.2
    nums.foldl (fun m2 num =>
      let ctx := contextOf is.2 num
      if 0 < ctx.length then insertOcc m2 ctx (num, is.1) else m2) m) []

/-- `detectNumericalInconsistencies`: a `numerical` contradiction for every
context key carrying at least two occurrences with at least two distinct
values, citing the first two distinct values and the shared context. -/
def detectNumericalInconsistencies (sections : List Text) :
    List Contradiction :=
  (numbersByContext sections).filterMap (fun kv =>
    let occurrences := kv.2
    if 1 < occurrences.length then
      let uniqueValues := firstDedup (occurrences.map Prod.fst)
      if 1 < uniqueValues.length then
        some { section1 := (occurrences.headD ([], 0)).2
               section2 := (occurrences.getLastD ([], 0)).2
               claim1 := uniqueValues.headD [] ++ (" (context: ").data ++
                 kv.1 ++ (")").data
               claim2 := (uniqueValues.drop 1).headD [] ++ (" (context: ").data ++
                 kv.1 ++ (")").data
               type := "numerical"
               confidence := 0.6 }
      else none
    else none)

/-- The seven contradiction-pattern families of the consistency engine's
`detectContradictions`. -/
def consistencyContradictionPatterns : List (List Text × List Text) :=
  [(phs (["is"]), [("is not").data, contraction "isn" "t"]),
   (phs (["will"]), [("will not").data, contraction "won" "t"]),
   (phs (["true"]), phs (["false"])),
   (phs (["always"]), phs (["never"])),
   (phs (["all"]), phs (["none", "no"])),
   ([("increase").data, ("increased").data],
    [("decrease").data, ("decreased").data]),
   (phs (["more"]), phs (["less", "fewer"]))]

/-- Split into sentences at `.`, `!` and `?`. -/
def splitSentences (cur : Text) : Text → List Text
  | [] => [cur.reverse]
  | c :: cs =>
    if c = '.' || c = '!' || c = '?' then
      cur.reverse :: splitSentences [] cs
    else splitSentences (c :: cur) cs

/-- `extractRelevantClaim`: the trimmed first sentence cut to 100
characters, falling back to the section's first 100 characters when that is
empty. -/
def extractRelevantClaim (sec : Text) (_pat : List Text × List Text) : Text :=
  let tr := (trimText ((splitSentences [] sec).headD [])).take 100
  if tr.isEmpty then sec.take 100 else tr

/-- The ordered index pairs `(i, j)` with `i < j` over the sections. -/
def sectionPairs (sections : List Text) : List ((Nat × Text) × (Nat × Text)) :=
  sections.enum.bind (fun a =>
    sections.enum.filterMap (fun b =>
      if a.1 < b.1 then some (a, b) else none))

/-- `ConsistencyEngine.detectContradictions`: for every section pair, the
first family whose positive and negative forms split across the lowercased
pair yields a `logical` contradiction when the pair shares at least two
long content words (the shared-word check does not depend on the family, so
at most the first cross-matching family can produce the entry). -/
def detectContradictions (sections : List Text) : List Contradiction :=
  (sectionPairs sections).filterMap (fun ab =>
    let s1 := lowerText ab.1.2
    let s2 := lowerText ab.2.2
    match consistencyContradictionPatterns.find? (fun pat =>
        crossMatch pat s1 s2) with
    | some pat =>
      if 2 ≤ overlapCount s1 s2 then
        some { section1 := ab.1.1
               section2 := ab.2.1
               claim1 := extractRelevantClaim ab.1.2 pat
               claim2 := extractRelevantClaim ab.2.2 pat
               type := "logical"
               confidence := 0.6 + (overlapCount s1 s2 : ℚ) * 0.05 }
      else none
    | none => none)

/-- `calculateSimilarityMatrix`: ones on the diagonal, the combined
similarity for `j > i`, mirrored below the diagonal. -/
def calculateSimilarityMatrix (sections : List Text) : List (List ℚ) :=
  sections.enum.map (fun a =>
    sections.enum.map (fun b =>
      if a.1 = b.1 then 1
      else if a.1 < b.1 then combinedSimilarity a.2 b.2
      else combinedSimilarity b.2 a.2))

/-- `calculateAverageSimilarity`: the mean of the strict upper triangle,
`1` for fewer than two rows. -/
def calculateAverageSimilarity (matrix : List (List ℚ)) : ℚ :=
  if matrix.length < 2 then 1
  else
    let entries := matrix.enum.bind (fun row =>
      row.2.enum.filterMap (fun v =>
        if row.1 < v.1 then some v.2 else none))
    if 0 < entries.length then entries.sum / (entries.length : ℚ) else 1

/-- `createMinimalResult` for fewer than two sections. -/
def createMinimalResult (sections : List Text) : ConsistencyResult :=
  { sections := sections
    avgSimilarity := 1
    similarityMatrix := none
    stable := true
    drift := false
    contradictions := []
    confidence := { value := 0.3, interval := (0.1, 0.5), method := "heuristic" }
    limitations := CONSISTENCY_LIMITATIONS ++
      ["Insufficient text for meaningful consistency analysis"]
    methodology := CONSISTENCY_METHODOLOGY }

/-- `calculateConfidence`: base 0.5, +0.2 for five or more sections else
+0.1 for three or more, +0.1 when contradictions exist; value capped at
0.85, interval a ±0.15 margin around the uncapped value. -/
def calculateConfidence (sectionCount contradictionCount : Nat) :
    ConfidenceScore :=
  let value : ℚ := 0.5 +
    (if 5 ≤ sectionCount then 0.2 else if 3 ≤ sectionCount then 0.1 else 0) +
    (if 0 < contradictionCount then 0.1 else 0)
  { value := min 0.85 value
    interval := (max 0 (value - 0.15), min 1 (value + 0.15))
    method := "heuristic" }

/-- The combined drift score of `check` (one addend per drift signal). -/
def driftScoreVal (sentimentDrift styleDrift lengthDrift : Bool)
    (numCount : Nat) (avgSimilarity : ℚ) : ℚ :=
  (if sentimentDrift then 0.3 else 0) +
  (if styleDrift then 0.3 else 0) +
  (if lengthDrift then 0.2 else 0) +
  (if 0 < numCount then 0.2 else 0) +
  (if avgSimilarity < 0.5 then 0.3 else 0)

/-- `ConsistencyEngine.check`: the full pipeline. The stability flag is
computed from the logical contradictions alone; the sentiment-drift,
style-drift and numerical entries are appended afterwards. -/
def consistencyCheck (config : Config) (content : Text) : ConsistencyResult :=
  let sections := splitParagraphs content
  if sections.length < 2 then createMinimalResult sections
  else
    let matrix := calculateSimilarityMatrix sections
    let avgSimilarity := calculateAverageSimilarity matrix
    let contradictions := detectContradictions sections
    let sentimentDrift := detectSentimentDrift sections
    let styleDrift := detectStyleDrift sections
    let lengthDrift := detectLengthDrift sections
    let numericalInconsistencies := detectNumericalInconsistencies sections
    let driftScore := driftScoreVal sentimentDrift styleDrift lengthDrift
      numericalInconsistencies.length avgSimilarity
    let stable := decide ((0.6 : ℚ) < avgSimilarity) &&
      decide (contradictions.length = 0) && decide (driftScore < (0.3 : ℚ))
    let drift := decide ((0.4 : ℚ) ≤ driftScore) ||
      decide (avgSimilarity < (0.4 : ℚ))
    let confidence := calculateConfidence sections.length contradictions.length
    let entries := contradictions ++
      (if sentimentDrift then
        [{ section1 := 0, section2 := sections.length - 1
           claim1 := ("Initial sentiment").data
           claim2 := ("Final sentiment").data
           type := "sentiment_drift", confidence := 0.7 }]
       else []) ++
      (if styleDrift then
        [{ section1 := 0, section2 := sections.length - 1
           claim1 := ("Initial style").data
           claim2 := ("Final style").data
           type := "style_drift", confidence := 0.7 }]
       else []) ++
      numericalInconsistencies
    { sections := sections
      avgSimilarity := avgSimilarity
      similarityMatrix := if config.output.verbose then some matrix else none
      stable := stable
      drift := drift
      contradictions := entries
      confidence := confidence
      limitations := CONSISTENCY_LIMITATIONS
      methodology := CONSISTENCY_METHODOLOGY }

/-! ## Claim theorems: the risk analyzer -/

/-- C6: `analyzeRiskIndicators` attaches a `combinedRisk` equal to the
0.25/0.20/0.20/0.10/0.15/0.05/0.05 weighted sum of its seven signals (each
of the five risk components individually capped at 1), raises
`lackOfSpecificity` to the maximum of its previous value and one minus the
specificity score, attaches the three named sub-risks, and leaves the
claim's text, span, type, verifiability, confidence, limitations and its
other indicator fields unchanged. -/
theorem c6_analyzeRiskIndicators (currentYear : Nat) (cfg : Config)
    (c : Claim) :
    ((analyzeRiskIndicators currentYear c cfg).riskIndicators.combinedRisk =
      some (detectFabricatedStatistics c.text * 0.25 +
            detectOverconfidence c.text * 0.20 +
            detectFakeAuthority c.text * 0.20 +
            detectTemporalIssues currentYear c.text * 0.10 +
            detectNumericalRisk c.text * 0.15 +
            (1 - detectHedging c.text) * 0.05 +
            (1 - detectSpecificity c.text) * 0.05)) ∧
    detectFabricatedStatistics c.text ≤ 1 ∧
    detectOverconfidence c.text ≤ 1 ∧
    detectFakeAuthority c.text ≤ 1 ∧
    detectTemporalIssues currentYear c.text ≤ 1 ∧
    detectNumericalRisk c.text ≤ 1 ∧
    ((analyzeRiskIndicators currentYear c cfg).riskIndicators.lackOfSpecificity =
      max c.riskIndicators.lackOfSpecificity (1 - detectSpecificity c.text)) ∧
    ((analyzeRiskIndicators currentYear c cfg).riskIndicators.fabricatedStatRisk =
      some (detectFabricatedStatistics c.text)) ∧
    ((analyzeRiskIndicators currentYear c cfg).riskIndicators.overconfidenceRisk =
      some (detectOverconfidence c.text)) ∧
    ((analyzeRiskIndicators currentYear c cfg).riskIndicators.fakeAuthorityRisk =
      some (detectFakeAuthority c.text)) ∧
    ((analyzeRiskIndicators currentYear c cfg).text = c.text) ∧
    ((analyzeRiskIndicators currentYear c cfg).span = c.span) ∧
    ((analyzeRiskIndicators currentYear c cfg).type = c.type) ∧
    ((analyzeRiskIndicators currentYear c cfg).verifiable = c.verifiable) ∧
    ((analyzeRiskIndicators currentYear c cfg).confidence = c.confidence) ∧
    ((analyzeRiskIndicators currentYear c cfg).limitations = c.limitations) ∧
    ((analyzeRiskIndicators currentYear c cfg).riskIndicators.missingCitation =
      c.riskIndicators.missingCitation) ∧
    ((analyzeRiskIndicators currentYear c cfg).riskIndicators.vagueLanguage =
      c.riskIndicators.vagueLanguage) ∧
    ((analyzeRiskIndicators currentYear c cfg).riskIndicators.contradictionSignal =
      c.riskIndicators.contradictionSignal) := by
  refine ⟨rfl, ?_, ?_, ?_, ?_, ?_, rfl, rfl, rfl, rfl, rfl, rfl, rfl, rfl,
    rfl, rfl, rfl, rfl, rfl⟩
  · unfold detectFabricatedStatistics
    exact min_le_left _ _
  · unfold detectOverconfidence
    exact min_le_left _ _
  · unfold detectFakeAuthority
    exact min_le_left _ _
  · unfold detectTemporalIssues
    exact min_le_left _ _
  · unfold detectNumericalRisk
    exact min_le_left _ _

/-! ## Claim theorems: the contradiction checker (C8) -/

/-- The specification-side predicate: the claim at index `i` is involved in
at least one contradicting pair. -/
def InvolvedInContradiction (claims : List Claim) (i : Nat) : Prop :=
  ∃ j ci cj, claims.get? i = some ci ∧ claims.get? j = some cj ∧
    ((i < j ∧ detectContradiction ci cj = true) ∨
     (j < i ∧ detectContradiction cj ci = true))

theorem mem_contradictionPairs_iff (claims : List Claim) (p : Nat × Nat) :
    p ∈ contradictionPairs claims ↔
    ∃ ca cb, claims.get? p.1 = some ca ∧ claims.get? p.2 = some cb ∧
      p.1 < p.2 ∧ detectContradiction ca cb = true := by
  constructor
  · intro hp
    rcases List.mem_bind.mp hp with ⟨a, ha, hfa⟩
    rcases List.mem_filterMap.mp hfa with ⟨b, hb, hf⟩
    split at hf
    · rename_i hcond
      rcases Option.some.inj hf with rfl
      rw [Bool.and_eq_true_iff] at hcond
      refine ⟨a.2, b.2, ?_, ?_, by simpa using hcond.1, hcond.2⟩
      · exact List.mem_enum_iff_get?.mp ha
      · exact List.mem_enum_iff_get?.mp hb
    · cases hf
  · rintro ⟨ca, cb, hca, hcb, hlt, hdet⟩
    refine List.mem_bind.mpr ⟨(p.1, ca), List.mem_enum_iff_get?.mpr hca, ?_⟩
    refine List.mem_filterMap.mpr ⟨(p.2, cb), List.mem_enum_iff_get?.mpr hcb, ?_⟩
    rw [if_pos (by simp [hlt, hdet])]

theorem involved_iff (claims : List Claim) (i : Nat) :
    (contradictionPairs claims).any (fun p => p.1 = i || p.2 = i) = true ↔
    InvolvedInContradiction claims i := by
  rw [List.any_eq_true]
  constructor
  · rintro ⟨p, hp, hcond⟩
    rcases (mem_contradictionPairs_iff claims p).mp hp with
      ⟨ca, cb, hca, hcb, hlt, hdet⟩
    simp only [Bool.or_eq_true, decide_eq_true_eq] at hcond
    rcases hcond with rfl | rfl
    · exact ⟨p.2, ca, cb, hca, hcb, Or.inl ⟨hlt, hdet⟩⟩
    · exact ⟨p.1, cb, ca, hcb, hca, Or.inr ⟨hlt, hdet⟩⟩
  · rintro ⟨j, ci, cj, hci, hcj, hor⟩
    rcases hor with ⟨hlt, hdet⟩ | ⟨hlt, hdet⟩
    · refine ⟨(i, j), (mem_contradictionPairs_iff claims (i, j)).mpr
        ⟨ci, cj, hci, hcj, hlt, hdet⟩, by simp⟩
    · refine ⟨(j, i), (mem_contradictionPairs_iff claims (j, i)).mpr
        ⟨cj, ci, hcj, hci, hlt, hdet⟩, by simp⟩

/-- C8: `checkContradictions` keeps the list's length and order; a claim
involved in at least one contradicting pair is returned with only its
`contradictionSignal` indicator switched on, and a claim in no pair is
returned unchanged (every other field passes through in both cases). -/
theorem c8_checkContradictions (claims : List Claim) (i : Nat) (ci : Claim)
    (hci : claims.get? i = some ci) :
    (checkContradictions claims).length = claims.length ∧
    (InvolvedInContradiction claims i →
       (checkContradictions claims).get? i =
         some { ci with riskIndicators :=
           { ci.riskIndicators with contradictionSignal := true } }) ∧
    (¬ InvolvedInContradiction claims i →
       (checkContradictions claims).get? i = some ci) := by
  have hget : (checkContradictions claims).get? i =
      ((claims.get? i).map (fun a => (i, a))).map (fun ic =>
        if (contradictionPairs claims).any (fun p => p.1 = ic.1 || p.2 = ic.1) then
          { ic.2 with riskIndicators :=
            { ic.2.riskIndicators with contradictionSignal := true } }
        else ic.2) := by
    unfold checkContradictions
    rw [List.get?_map, List.get?_enum]
  refine ⟨?_, ?_, ?_⟩
  · unfold checkContradictions
    rw [List.length_map, List.enum_length]
  · intro hinv
    rw [hget, hci]
    simp only [Option.map_some']
    rw [if_pos ((involved_iff claims i).mpr hinv)]
  · intro hinv
    rw [hget, hci]
    simp only [Option.map_some']
    rw [if_neg (fun hc => hinv ((involved_iff claims i).mp hc))]

/-- A concrete claim for witnesses and counterexamples (the non-text fields
are arbitrary well-formed values). -/
def textClaim (t : Text) : Claim :=
  { text := t
    span := (0, t.length)
    type := "factual"
    verifiable := true
    riskIndicators :=
      { lackOfSpecificity := 0, missingCitation := false
        vagueLanguage := false, contradictionSignal := false }
    confidence := { value := 0.5, interval := (0.35, 0.65), method := "heuristic" }
    limitations := [] }

/-- C8 witness: two contradicting claims (always/never with four shared
long words); the first comes back with only its signal set. -/
theorem c8_checkContradictions_witness :
    ([textClaim (("the system always responds quickly today").data),
      textClaim (("the system never responds quickly today").data)].get? 0 =
      some (textClaim (("the system always responds quickly today").data))) ∧
    (checkContradictions
        [textClaim (("the system always responds quickly today").data),
         textClaim (("the system never responds quickly today").data)]).get? 0 =
      some { textClaim (("the system always responds quickly today").data) with
        riskIndicators :=
          { (textClaim (("the system always responds quickly today").data)).riskIndicators
            with contradictionSignal := true } } :=
  ⟨rfl,
    (c8_checkContradictions
      [textClaim (("the system always responds quickly today").data),
       textClaim (("the system never responds quickly today").data)] 0
      (textClaim (("the system always responds quickly today").data)) rfl).2.1
      ⟨1, textClaim (("the system always responds quickly today").data),
        textClaim (("the system never responds quickly today").data), rfl, rfl,
        Or.inl ⟨by decide, by decide⟩⟩⟩

/-! ## Claim theorems: the two contradiction detectors (C3) -/

/-- C3 counterexample: the can/cannot family is tested only by the
hallucination detector, so on this pair — identical but for the negation,
with five shared long content words — the claim-level detector reports a
contradiction while the consistency engine reports none. -/
theorem c3_counterexample_detectors_disagree :
    detectContradiction
      (textClaim (("system alpha module can process requests").data))
      (textClaim (("system alpha module cannot process requests").data)) = true ∧
    detectContradictions
      [("system alpha module can process requests").data,
       ("system alpha module cannot process requests").data] = [] := by
  exact ⟨by decide, by decide⟩

/-- C3 amended: both detectors require at least two shared content words
longer than four characters, but the consistency engine tests seven pattern
families while the hallucination detector tests nine different ones, so the
two detectors need not agree on whether a pattern-level contradiction
exists between a pair of texts. -/
theorem c3_pattern_families_differ :
    hallNegationPatterns.length = 9 ∧
    consistencyContradictionPatterns.length = 7 ∧
    (∀ c1 c2 : Claim,
       overlapCount (lowerText c1.text) (lowerText c2.text) < 2 →
       detectContradiction c1 c2 = false) ∧
    (∀ s1 s2 : Text, overlapCount (lowerText s1) (lowerText s2) < 2 →
       detectContradictions [s1, s2] = []) ∧
    (∃ t1 t2 : Text,
       detectContradiction (textClaim t1) (textClaim t2) = true ∧
       detectContradictions [t1, t2] = []) := by
  refine ⟨rfl, rfl, ?_, ?_, ?_⟩
  · intro c1 c2 h
    unfold detectContradiction
    rw [List.any_eq_false]
    intro pat _
    simp only [Bool.and_eq_true, decide_eq_true_eq, not_and]
    intro _
    omega
  · intro s1 s2 h
    unfold detectContradictions
    have hsp : sectionPairs [s1, s2] = [((0, s1), (1, s2))] := rfl
    rw [hsp]
    have h2 : ¬ (2 ≤ overlapCount (lowerText s1) (lowerText s2)) := by omega
    simp only [List.filterMap]
    cases hfind : consistencyContradictionPatterns.find? (fun pat =>
        crossMatch pat (lowerText s1) (lowerText s2)) with
    | none => rfl
    | some pat =>
      dsimp only
      rw [if_neg h2]
  · exact ⟨("system alpha module can process requests").data,
      ("system alpha module cannot process requests").data,
      by decide, by decide⟩

/-- C3 witness: the shared-word requirement applied to a pair with no
shared long content words. -/
theorem c3_pattern_families_differ_witness :
    overlapCount (lowerText (textClaim (("cats can fly").data)).text)
      (lowerText (textClaim (("dogs cannot swim").data)).text) < 2 ∧
    detectContradiction (textClaim (("cats can fly").data))
      (textClaim (("dogs cannot swim").data)) = false :=
  ⟨by decide,
    c3_pattern_families_differ.2.2.1 (textClaim (("cats can fly").data))
      (textClaim (("dogs cannot swim").data)) (by decide)⟩

/-! ## Claim theorems: the consistency engine (C7, C10) -/

/-- C7: with fewer than two paragraph sections, `check` returns the minimal
result: unit average similarity, stable, no drift, no contradictions, the
fixed heuristic confidence, and the fixed limitations extended with an
insufficient-text entry. -/
theorem c7_minimal_result (config : Config) (content : Text)
    (h : (splitParagraphs content).length < 2) :
    (consistencyCheck config content).avgSimilarity = 1 ∧
    (consistencyCheck config content).stable = true ∧
    (consistencyCheck config content).drift = false ∧
    (consistencyCheck config content).contradictions = [] ∧
    (consistencyCheck config content).confidence =
      { value := 0.3, interval := (0.1, 0.5), method := "heuristic" } ∧
    (consistencyCheck config content).limitations =
      CONSISTENCY_LIMITATIONS ++
        ["Insufficient text for meaningful consistency analysis"] ∧
    (consistencyCheck config content).sections = splitParagraphs content := by
  unfold consistencyCheck
  rw [if_pos h]
  exact ⟨rfl, rfl, rfl, rfl, rfl, rfl, rfl⟩

/-- C7 witness: a single-paragraph input. -/
theorem c7_minimal_result_witness :
    (splitParagraphs (("hello world").data)).length < 2 ∧
    (consistencyCheck DEFAULT_CONFIG (("hello world").data)).stable = true ∧
    (consistencyCheck DEFAULT_CONFIG (("hello world").data)).avgSimilarity = 1 :=
  ⟨by decide,
    (c7_minimal_result DEFAULT_CONFIG (("hello world").data) (by decide)).2.1,
    (c7_minimal_result DEFAULT_CONFIG (("hello world").data) (by decide)).1⟩

theorem driftScoreVal_term_nonneg (b : Bool) (q : ℚ) (hq : 0 ≤ q) :
    0 ≤ (if b then q else 0) := by
  cases b <;> simp [hq]

theorem driftScoreVal_sd_false {sd st ld : Bool} {n : Nat} {avg : ℚ}
    (h : driftScoreVal sd st ld n avg < 0.3) : sd = false ∧ st = false := by
  unfold driftScoreVal at h
  have h1 := driftScoreVal_term_nonneg sd (0.3 : ℚ) (by norm_num)
  have h2 := driftScoreVal_term_nonneg st (0.3 : ℚ) (by norm_num)
  have h3 := driftScoreVal_term_nonneg ld (0.2 : ℚ) (by norm_num)
  have h4 : (0 : ℚ) ≤ (if 0 < n then (0.2 : ℚ) else 0) := by
    split <;> norm_num
  have h5 : (0 : ℚ) ≤ (if avg < 0.5 then (0.3 : ℚ) else 0) := by
    split <;> norm_num
  constructor
  · cases hsd : sd
    · rfl
    · rw [hsd] at h
      simp only [if_true] at h
      linarith
  · cases hst : st
    · rfl
    · rw [hst] at h
      simp only [if_true] at h
      linarith

/-- Every entry of `detectNumericalInconsistencies` has type `numerical`. -/
theorem detectNumericalInconsistencies_type (sections : List Text)
    (c : Contradiction) (h : c ∈ detectNumericalInconsistencies sections) :
    c.type = "numerical" := by
  unfold detectNumericalInconsistencies at h
  rcases List.mem_filterMap.mp h with ⟨kv, _, hf⟩
  simp only [] at hf
  split at hf
  · split at hf
    · rcases Option.some.inj hf with rfl
      rfl
    · cases hf
  · cases hf

unseal Rat.add Rat.mul Rat.inv Rat.sub Rat.ofScientific

/-- The content of the C10 existence witness: two near-identical paragraphs
differing only in a number in the same context. -/
def content10 : Text :=
  ("alpha bravo charlie delta echo 10 foxtrot golf hotel\n\nalpha bravo charlie delta echo 20 foxtrot golf hotel").data

/-- C10: a `check` result can be stable with a non-empty contradictions
list; stability is decided before the drift and numerical entries are
appended, a numerical inconsistency contributes only 0.2 to the drift
score, so `stable` rules out every entry type except `numerical`, and a
`sentiment_drift` or `style_drift` entry forces `stable = false`. -/
theorem c10_stable_with_contradictions :
    (∃ content : Text,
       (consistencyCheck DEFAULT_CONFIG content).stable = true ∧
       (consistencyCheck DEFAULT_CONFIG content).contradictions ≠ []) ∧
    (∀ (config : Config) (content : Text),
       (consistencyCheck config content).stable = true →
       ∀ c ∈ (consistencyCheck config content).contradictions,
         c.type = "numerical") ∧
    (∀ (config : Config) (content : Text)
       (c : Contradiction),
       c ∈ (consistencyCheck config content).contradictions →
       (c.type = "sentiment_drift" ∨ c.type = "style_drift") →
       (consistencyCheck config content).stable = false) := by
  have hB : ∀ (config : Config) (content : Text),
      (consistencyCheck config content).stable = true →
      ∀ c ∈ (consistencyCheck config content).contradictions,
        c.type = "numerical" := by
    intro config content hstable c hc
    unfold consistencyCheck at hstable hc
    by_cases hlen : (splitParagraphs content).length < 2
    · rw [if_pos hlen] at hc
      simp [createMinimalResult] at hc
    · rw [if_neg hlen] at hstable hc
      simp only [] at hstable hc
      rw [Bool.and_eq_true_iff] at hstable
      rw [Bool.and_eq_true_iff] at hstable
      rcases hstable with ⟨⟨_, hlen0⟩, hdrift⟩
      rw [decide_eq_true_eq] at hlen0 hdrift
      have hempty : detectContradictions (splitParagraphs content) = [] :=
        List.length_eq_zero.mp hlen0
      have hsd := driftScoreVal_sd_false hdrift
      rw [hempty, hsd.1, hsd.2] at hc
      simp only [List.nil_append, if_false, Bool.false_eq_true] at hc
      exact detectNumericalInconsistencies_type _ c hc
  refine ⟨⟨content10, by decide, by decide⟩, hB, ?_⟩
  intro config content c hc htype
  cases hst : (consistencyCheck config content).stable
  · rfl
  · have hnum := hB config content hst c hc
    rcases htype with h | h <;> (rw [hnum] at h; exact absurd h (by decide))

/-- The numerical contradiction entry of the C10 witness content. -/
def c10entry : Contradiction :=
  { section1 := 0
    section2 := 1
    claim1 := ("10 (context: alpha bravo charlie delta foxtrot)").data
    claim2 := ("20 (context: alpha bravo charlie delta foxtrot)").data
    type := "numerical"
    confidence := 0.6 }

/-- C10 witness: the concrete stable-yet-contradictory run, with the
universally quantified part applied to its numerical entry. -/
theorem c10_stable_with_contradictions_witness :
    (consistencyCheck DEFAULT_CONFIG content10).stable = true ∧
    c10entry ∈ (consistencyCheck DEFAULT_CONFIG content10).contradictions ∧
    c10entry.type = "numerical" :=
  ⟨by decide, by decide,
    c10_stable_with_contradictions.2.1 DEFAULT_CONFIG content10 (by decide)
      c10entry (by decide)⟩

end LLMVerify
